import Mathlib

/-!
Shallow embedding of `src/researcher/task.py`: a pydantic schema
(`CompanyProfile` and its nested models) that validates JSON-like documents
produced by an external research agent.

The untyped input is modelled by `JValue`.  For each pydantic model `X` we
define
  * `X.errs  : JValue → List VError` — the validation errors pydantic reports
    for that subtree (paths relative to the subtree root);
  * `X.parse : JValue → X` — the typed value built when there are no errors
    (total, with junk at positions guarded by errors);
  * `X.toJ   : X → JValue` — serialization (pydantic `model_dump`).
Field semantics follow pydantic defaults for the declarations in the source:
required fields (`...`) must be present, `Optional` fields accept `null`,
declared defaults are applied when a key is absent, numeric `ge`/`le` bounds
are inclusive, `Literal` fields reject non-members, and keys not declared in
a model are ignored (pydantic default `extra='ignore'`).  JSON numbers are
modelled as rationals; integer-typed fields require an integral value.
-/

namespace CompanyResearch

/-- An untyped JSON-like document (maps, lists, scalars). -/
inductive JValue where
  | null
  | bool (b : Bool)
  | num (q : ℚ)
  | str (s : String)
  | arr (items : List JValue)
  | obj (fields : List (String × JValue))
deriving Repr

/-- Kind of a reported violation, following the spec's taxonomy.
The schema in the source declares no pattern/format validator, so `format`
is never produced by `errs`. -/
inductive ErrKind where
  | structural
  | range
  | enum
  | format
deriving Repr, DecidableEq

/-- One validation error: field path, violated rule and the received value. -/
structure VError where
  path : List String
  kind : ErrKind
  received : JValue
deriving Repr

/-- Key lookup in a JSON object (first match). -/
def jLookup : List (String × JValue) → String → Option JValue
  | [], _ => none
  | (k, v) :: rest, name => if k = name then some v else jLookup rest name

/-- Prefix every error path with one path segment. -/
def reroot (seg : String) (es : List VError) : List VError :=
  es.map fun e => { e with path := seg :: e.path }

/-! ### Scalar validators (errors relative to the value itself) -/

def strE : JValue → List VError
  | .str _ => []
  | v => [⟨[], .structural, v⟩]

def strP : JValue → String
  | .str s => s
  | _ => ""

def boolE : JValue → List VError
  | .bool _ => []
  | v => [⟨[], .structural, v⟩]

def boolP : JValue → Bool
  | .bool b => b
  | _ => false

/-- Inclusive integer bounds (`ge`/`le` keyword arguments; `none` = absent). -/
def inBoundsI (lo hi : Option ℤ) (n : ℤ) : Bool :=
  (match lo with | some l => decide (l ≤ n) | none => true) &&
  (match hi with | some h => decide (n ≤ h) | none => true)

def intE (lo hi : Option ℤ) : JValue → List VError
  | .num q =>
      if q.den = 1 then
        if inBoundsI lo hi q.num then [] else [⟨[], .range, .num q⟩]
      else [⟨[], .structural, .num q⟩]
  | v => [⟨[], .structural, v⟩]

def intP : JValue → ℤ
  | .num q => q.num
  | _ => 0

/-- Inclusive rational bounds for float fields. -/
def inBoundsQ (lo hi : Option ℚ) (x : ℚ) : Bool :=
  (match lo with | some l => decide (l ≤ x) | none => true) &&
  (match hi with | some h => decide (x ≤ h) | none => true)

def floatE (lo hi : Option ℚ) : JValue → List VError
  | .num q => if inBoundsQ lo hi q then [] else [⟨[], .range, .num q⟩]
  | v => [⟨[], .structural, v⟩]

def floatP : JValue → ℚ
  | .num q => q
  | _ => 0

/-- `Literal[...]` over strings: closed enumeration. -/
def litSE (allowed : List String) : JValue → List VError
  | .str s => if s ∈ allowed then [] else [⟨[], .enum, .str s⟩]
  | v => [⟨[], .enum, v⟩]

/-- `Literal[...]` over integers (used by `FiscalPeriod.quarter`). -/
def litIE (allowed : List ℤ) : JValue → List VError
  | .num q => if q.den = 1 ∧ q.num ∈ allowed then [] else [⟨[], .enum, .num q⟩]
  | v => [⟨[], .enum, v⟩]

/-! ### Structure combinators -/

/-- `Optional[T]`: `null` is accepted and parses to `none`. -/
def optE (inner : JValue → List VError) : JValue → List VError
  | .null => []
  | v => inner v

def optP {α : Type} (inner : JValue → α) : JValue → Option α
  | .null => none
  | v => some (inner v)

def listEFrom (inner : JValue → List VError) : ℕ → List JValue → List VError
  | _, [] => []
  | i, x :: rest => reroot (toString i) (inner x) ++ listEFrom inner (i + 1) rest

/-- `List[T]` field value: every element validated, indexed paths. -/
def listE (inner : JValue → List VError) : JValue → List VError
  | .arr xs => listEFrom inner 0 xs
  | v => [⟨[], .structural, v⟩]

def listP {α : Type} (inner : JValue → α) : JValue → List α
  | .arr xs => xs.map inner
  | _ => []

/-- Required field (`Field(...)`): absence is a structural error. -/
def req (fs : List (String × JValue)) (name : String)
    (inner : JValue → List VError) : List VError :=
  match jLookup fs name with
  | some fv => reroot name (inner fv)
  | none => [⟨[name], .structural, .null⟩]

/-- Field with a default: absence produces no error. -/
def dfl (fs : List (String × JValue)) (name : String)
    (inner : JValue → List VError) : List VError :=
  match jLookup fs name with
  | some fv => reroot name (inner fv)
  | none => []

/-- Parse one field, with the declared default for an absent key. -/
def getP {α : Type} (fs : List (String × JValue)) (name : String)
    (inner : JValue → α) (d : α) : α :=
  match jLookup fs name with
  | some fv => inner fv
  | none => d

/-- Serialization of an `Optional` field (`model_dump` keeps the key). -/
def optJ {α : Type} (f : α → JValue) : Option α → JValue
  | none => .null
  | some a => f a

/-! ### SegmentRatio / SegmentAmount -/

structure SegmentRatio where
  name : String
  ratio : ℚ
deriving Repr, DecidableEq

def SegmentRatio.errs : JValue → List VError
  | .obj fs => req fs "name" strE ++ req fs "ratio" (floatE (some 0) (some 1))
  | v => [⟨[], .structural, v⟩]

def SegmentRatio.parse : JValue → SegmentRatio
  | .obj fs => { name := getP fs "name" strP "", ratio := getP fs "ratio" floatP 0 }
  | _ => { name := "", ratio := 0 }

def SegmentRatio.toJ (x : SegmentRatio) : JValue :=
  .obj [("name", .str x.name), ("ratio", .num x.ratio)]

structure SegmentAmount where
  name : String
  amount_yen : ℚ
deriving Repr, DecidableEq

def SegmentAmount.errs : JValue → List VError
  | .obj fs => req fs "name" strE ++ req fs "amount_yen" (floatE (some 0) none)
  | v => [⟨[], .structural, v⟩]

def SegmentAmount.parse : JValue → SegmentAmount
  | .obj fs => { name := getP fs "name" strP "", amount_yen := getP fs "amount_yen" floatP 0 }
  | _ => { name := "", amount_yen := 0 }

def SegmentAmount.toJ (x : SegmentAmount) : JValue :=
  .obj [("name", .str x.name), ("amount_yen", .num x.amount_yen)]

/-! ### FiscalPeriod -/

def periodTypes : List String := ["annual", "quarter"]

structure FiscalPeriod where
  period_type : String
  fiscal_year : ℤ
  quarter : Option ℤ
  period_start : Option String
  period_end : Option String
deriving Repr, DecidableEq

def FiscalPeriod.errs : JValue → List VError
  | .obj fs =>
      req fs "period_type" (litSE periodTypes) ++
      req fs "fiscal_year" (intE (some 1900) (some 2100)) ++
      dfl fs "quarter" (optE (litIE [1, 2, 3, 4])) ++
      dfl fs "period_start" (optE strE) ++
      dfl fs "period_end" (optE strE)
  | v => [⟨[], .structural, v⟩]

def FiscalPeriod.parse : JValue → FiscalPeriod
  | .obj fs =>
      { period_type := getP fs "period_type" strP ""
        fiscal_year := getP fs "fiscal_year" intP 0
        quarter := getP fs "quarter" (optP intP) none
        period_start := getP fs "period_start" (optP strP) none
        period_end := getP fs "period_end" (optP strP) none }
  | _ => { period_type := "", fiscal_year := 0, quarter := none,
           period_start := none, period_end := none }

def FiscalPeriod.toJ (x : FiscalPeriod) : JValue :=
  .obj [("period_type", .str x.period_type),
        ("fiscal_year", .num x.fiscal_year),
        ("quarter", optJ (fun n : ℤ => JValue.num (n : ℚ)) x.quarter),
        ("period_start", optJ .str x.period_start),
        ("period_end", optJ .str x.period_end)]

/-- Validate a `FiscalPeriod` document on its own. -/
def FiscalPeriod.validate (v : JValue) : Except (List VError) FiscalPeriod :=
  match FiscalPeriod.errs v with
  | [] => .ok (FiscalPeriod.parse v)
  | es => .error es

/-! ### Executive -/

structure Executive where
  name : String
  title : String
  career_summary : Option String
  responsibility : Option String
  start_date : Option String
  end_date : Option String
  source_url : Option String
deriving Repr, DecidableEq

def Executive.errs : JValue → List VError
  | .obj fs =>
      req fs "name" strE ++
      req fs "title" strE ++
      dfl fs "career_summary" (optE strE) ++
      dfl fs "responsibility" (optE strE) ++
      dfl fs "start_date" (optE strE) ++
      dfl fs "end_date" (optE strE) ++
      dfl fs "source_url" (optE strE)
  | v => [⟨[], .structural, v⟩]

def Executive.parse : JValue → Executive
  | .obj fs =>
      { name := getP fs "name" strP ""
        title := getP fs "title" strP ""
        career_summary := getP fs "career_summary" (optP strP) none
        responsibility := getP fs "responsibility" (optP strP) none
        start_date := getP fs "start_date" (optP strP) none
        end_date := getP fs "end_date" (optP strP) none
        source_url := getP fs "source_url" (optP strP) none }
  | _ => { name := "", title := "", career_summary := none, responsibility := none,
           start_date := none, end_date := none, source_url := none }

def Executive.toJ (x : Executive) : JValue :=
  .obj [("name", .str x.name),
        ("title", .str x.title),
        ("career_summary", optJ .str x.career_summary),
        ("responsibility", optJ .str x.responsibility),
        ("start_date", optJ .str x.start_date),
        ("end_date", optJ .str x.end_date),
        ("source_url", optJ .str x.source_url)]

/-! ### CompanyBasic -/

/-- The 47 Japanese prefecture names plus `"Other"`, exactly as listed in the
source `Literal` annotation of `headquarters_pref`. -/
def prefectures : List String :=
  ["北海道", "青森県", "岩手県", "宮城県", "秋田県", "山形県", "福島県",
   "茨城県", "栃木県", "群馬県", "埼玉県", "千葉県", "東京都", "神奈川県",
   "新潟県", "富山県", "石川県", "福井県", "山梨県", "長野県", "岐阜県",
   "静岡県", "愛知県", "三重県", "滋賀県", "京都府", "大阪府", "兵庫県",
   "奈良県", "和歌山県", "鳥取県", "島根県", "岡山県", "広島県", "山口県",
   "徳島県", "香川県", "愛媛県", "高知県", "福岡県", "佐賀県", "長崎県",
   "熊本県", "大分県", "宮崎県", "鹿児島県", "沖縄県", "Other"]

def markets : List String := ["Prime", "Standard", "Growth", "Non-listed"]

def accountingStandards : List String := ["JGAAP", "IFRS", "USGAAP"]

structure CompanyBasic where
  company_name : String
  ticker_code : Option ℤ
  market : Option String
  corporate_number : Option String
  headquarters_pref : Option String
  founded_year : Option ℤ
  capital_yen : Option ℤ
  employees_consolidated : Option ℤ
  executives : List Executive
  accounting_standard : Option String
  fiscal_year_start_month : Option ℤ
  source_url : Option String
deriving Repr, DecidableEq

def CompanyBasic.errs : JValue → List VError
  | .obj fs =>
      req fs "company_name" strE ++
      dfl fs "ticker_code" (optE (intE (some 1000) (some 9999))) ++
      dfl fs "market" (optE (litSE markets)) ++
      dfl fs "corporate_number" (optE strE) ++
      dfl fs "headquarters_pref" (optE (litSE prefectures)) ++
      dfl fs "founded_year" (optE (intE (some 1600) (some 2100))) ++
      dfl fs "capital_yen" (optE (intE (some 0) none)) ++
      dfl fs "employees_consolidated" (optE (intE (some 0) none)) ++
      dfl fs "executives" (listE Executive.errs) ++
      dfl fs "accounting_standard" (optE (litSE accountingStandards)) ++
      dfl fs "fiscal_year_start_month" (optE (intE (some 1) (some 12))) ++
      dfl fs "source_url" (optE strE)
  | v => [⟨[], .structural, v⟩]

def CompanyBasic.parse : JValue → CompanyBasic
  | .obj fs =>
      { company_name := getP fs "company_name" strP ""
        ticker_code := getP fs "ticker_code" (optP intP) none
        market := getP fs "market" (optP strP) none
        corporate_number := getP fs "corporate_number" (optP strP) none
        headquarters_pref := getP fs "headquarters_pref" (optP strP) none
        founded_year := getP fs "founded_year" (optP intP) none
        capital_yen := getP fs "capital_yen" (optP intP) none
        employees_consolidated := getP fs "employees_consolidated" (optP intP) none
        executives := getP fs "executives" (listP Executive.parse) []
        accounting_standard := getP fs "accounting_standard" (optP strP) none
        fiscal_year_start_month := getP fs "fiscal_year_start_month" (optP intP) none
        source_url := getP fs "source_url" (optP strP) none }
  | _ => { company_name := "", ticker_code := none, market := none,
           corporate_number := none, headquarters_pref := none, founded_year := none,
           capital_yen := none, employees_consolidated := none, executives := [],
           accounting_standard := none, fiscal_year_start_month := none, source_url := none }

def CompanyBasic.toJ (x : CompanyBasic) : JValue :=
  .obj [("company_name", .str x.company_name),
        ("ticker_code", optJ (fun n : ℤ => JValue.num (n : ℚ)) x.ticker_code),
        ("market", optJ .str x.market),
        ("corporate_number", optJ .str x.corporate_number),
        ("headquarters_pref", optJ .str x.headquarters_pref),
        ("founded_year", optJ (fun n : ℤ => JValue.num (n : ℚ)) x.founded_year),
        ("capital_yen", optJ (fun n : ℤ => JValue.num (n : ℚ)) x.capital_yen),
        ("employees_consolidated", optJ (fun n : ℤ => JValue.num (n : ℚ)) x.employees_consolidated),
        ("executives", .arr (x.executives.map Executive.toJ)),
        ("accounting_standard", optJ .str x.accounting_standard),
        ("fiscal_year_start_month", optJ (fun n : ℤ => JValue.num (n : ℚ)) x.fiscal_year_start_month),
        ("source_url", optJ .str x.source_url)]

/-! ### FinancialRecord / Financials -/

structure FinancialRecord where
  period : FiscalPeriod
  is_consolidated : Option Bool
  is_cumulative : Option Bool
  restated : Option Bool
  revenue_yen : Option ℚ
  op_income_yen : Option ℚ
  ordinary_income_yen : Option ℚ
  ebitda_yen : Option ℚ
  net_income_yen : Option ℚ
  eps_yen : Option ℚ
  total_assets_yen : Option ℚ
  net_assets_yen : Option ℚ
  equity_ratio : Option ℚ
  interest_bearing_debt_yen : Option ℚ
  roe : Option ℚ
  roa : Option ℚ
  segment_revenue_ratio : List SegmentRatio
  segment_revenue_yen : List SegmentAmount
  notes : Option String
  source_url : Option String
deriving Repr, DecidableEq

def FinancialRecord.errs : JValue → List VError
  | .obj fs =>
      req fs "period" FiscalPeriod.errs ++
      dfl fs "is_consolidated" (optE boolE) ++
      dfl fs "is_cumulative" (optE boolE) ++
      dfl fs "restated" (optE boolE) ++
      dfl fs "revenue_yen" (optE (floatE (some 0) none)) ++
      dfl fs "op_income_yen" (optE (floatE (some 0) none)) ++
      dfl fs "ordinary_income_yen" (optE (floatE (some 0) none)) ++
      dfl fs "ebitda_yen" (optE (floatE (some 0) none)) ++
      dfl fs "net_income_yen" (optE (floatE (some 0) none)) ++
      dfl fs "eps_yen" (optE (floatE (some 0) none)) ++
      dfl fs "total_assets_yen" (optE (floatE (some 0) none)) ++
      dfl fs "net_assets_yen" (optE (floatE (some 0) none)) ++
      dfl fs "equity_ratio" (optE (floatE (some 0) (some 1))) ++
      dfl fs "interest_bearing_debt_yen" (optE (floatE (some 0) none)) ++
      dfl fs "roe" (optE (floatE (some (-1)) (some 1))) ++
      dfl fs "roa" (optE (floatE (some (-1)) (some 1))) ++
      dfl fs "segment_revenue_ratio" (listE SegmentRatio.errs) ++
      dfl fs "segment_revenue_yen" (listE SegmentAmount.errs) ++
      dfl fs "notes" (optE strE) ++
      dfl fs "source_url" (optE strE)
  | v => [⟨[], .structural, v⟩]

def FinancialRecord.parse : JValue → FinancialRecord
  | .obj fs =>
      { period := getP fs "period" FiscalPeriod.parse (FiscalPeriod.parse .null)
        is_consolidated := getP fs "is_consolidated" (optP boolP) (some true)
        is_cumulative := getP fs "is_cumulative" (optP boolP) (some true)
        restated := getP fs "restated" (optP boolP) (some false)
        revenue_yen := getP fs "revenue_yen" (optP floatP) none
        op_income_yen := getP fs "op_income_yen" (optP floatP) none
        ordinary_income_yen := getP fs "ordinary_income_yen" (optP floatP) none
        ebitda_yen := getP fs "ebitda_yen" (optP floatP) none
        net_income_yen := getP fs "net_income_yen" (optP floatP) none
        eps_yen := getP fs "eps_yen" (optP floatP) none
        total_assets_yen := getP fs "total_assets_yen" (optP floatP) none
        net_assets_yen := getP fs "net_assets_yen" (optP floatP) none
        equity_ratio := getP fs "equity_ratio" (optP floatP) none
        interest_bearing_debt_yen := getP fs "interest_bearing_debt_yen" (optP floatP) none
        roe := getP fs "roe" (optP floatP) none
        roa := getP fs "roa" (optP floatP) none
        segment_revenue_ratio := getP fs "segment_revenue_ratio" (listP SegmentRatio.parse) []
        segment_revenue_yen := getP fs "segment_revenue_yen" (listP SegmentAmount.parse) []
        notes := getP fs "notes" (optP strP) none
        source_url := getP fs "source_url" (optP strP) none }
  | _ => { period := FiscalPeriod.parse .null, is_consolidated := some true,
           is_cumulative := some true, restated := some false,
           revenue_yen := none, op_income_yen := none, ordinary_income_yen := none,
           ebitda_yen := none, net_income_yen := none, eps_yen := none,
           total_assets_yen := none, net_assets_yen := none, equity_ratio := none,
           interest_bearing_debt_yen := none, roe := none, roa := none,
           segment_revenue_ratio := [], segment_revenue_yen := [],
           notes := none, source_url := none }

def FinancialRecord.toJ (x : FinancialRecord) : JValue :=
  .obj [("period", x.period.toJ),
        ("is_consolidated", optJ .bool x.is_consolidated),
        ("is_cumulative", optJ .bool x.is_cumulative),
        ("restated", optJ .bool x.restated),
        ("revenue_yen", optJ (fun q : ℚ => JValue.num q) x.revenue_yen),
        ("op_income_yen", optJ (fun q : ℚ => JValue.num q) x.op_income_yen),
        ("ordinary_income_yen", optJ (fun q : ℚ => JValue.num q) x.ordinary_income_yen),
        ("ebitda_yen", optJ (fun q : ℚ => JValue.num q) x.ebitda_yen),
        ("net_income_yen", optJ (fun q : ℚ => JValue.num q) x.net_income_yen),
        ("eps_yen", optJ (fun q : ℚ => JValue.num q) x.eps_yen),
        ("total_assets_yen", optJ (fun q : ℚ => JValue.num q) x.total_assets_yen),
        ("net_assets_yen", optJ (fun q : ℚ => JValue.num q) x.net_assets_yen),
        ("equity_ratio", optJ (fun q : ℚ => JValue.num q) x.equity_ratio),
        ("interest_bearing_debt_yen", optJ (fun q : ℚ => JValue.num q) x.interest_bearing_debt_yen),
        ("roe", optJ (fun q : ℚ => JValue.num q) x.roe),
        ("roa", optJ (fun q : ℚ => JValue.num q) x.roa),
        ("segment_revenue_ratio", .arr (x.segment_revenue_ratio.map SegmentRatio.toJ)),
        ("segment_revenue_yen", .arr (x.segment_revenue_yen.map SegmentAmount.toJ)),
        ("notes", optJ .str x.notes),
        ("source_url", optJ .str x.source_url)]

structure Financials where
  records : List FinancialRecord
  source_url : Option String
  last_verified_at : Option String
deriving Repr, DecidableEq

/-- The instance built by the `default_factory=Financials` of the root model. -/
def Financials.init : Financials :=
  { records := [], source_url := none, last_verified_at := none }

def Financials.errs : JValue → List VError
  | .obj fs =>
      dfl fs "records" (listE FinancialRecord.errs) ++
      dfl fs "source_url" (optE strE) ++
      dfl fs "last_verified_at" (optE strE)
  | v => [⟨[], .structural, v⟩]

def Financials.parse : JValue → Financials
  | .obj fs =>
      { records := getP fs "records" (listP FinancialRecord.parse) []
        source_url := getP fs "source_url" (optP strP) none
        last_verified_at := getP fs "last_verified_at" (optP strP) none }
  | _ => Financials.init

def Financials.toJ (x : Financials) : JValue :=
  .obj [("records", .arr (x.records.map FinancialRecord.toJ)),
        ("source_url", optJ .str x.source_url),
        ("last_verified_at", optJ .str x.last_verified_at)]

/-! ### OrgSignal -/

def eventTypes : List String :=
  ["EXECUTIVE_CHANGE", "DEPT_CREATED", "DX_APPOINTMENT", "OTHER"]

structure OrgSignal where
  event_type : Option String
  title : String
  announced_date : Option String
  source_url : Option String
deriving Repr, DecidableEq

def OrgSignal.errs : JValue → List VError
  | .obj fs =>
      dfl fs "event_type" (optE (litSE eventTypes)) ++
      req fs "title" strE ++
      dfl fs "announced_date" (optE strE) ++
      dfl fs "source_url" (optE strE)
  | v => [⟨[], .structural, v⟩]

def OrgSignal.parse : JValue → OrgSignal
  | .obj fs =>
      { event_type := getP fs "event_type" (optP strP) none
        title := getP fs "title" strP ""
        announced_date := getP fs "announced_date" (optP strP) none
        source_url := getP fs "source_url" (optP strP) none }
  | _ => { event_type := none, title := "", announced_date := none, source_url := none }

def OrgSignal.toJ (x : OrgSignal) : JValue :=
  .obj [("event_type", optJ .str x.event_type),
        ("title", .str x.title),
        ("announced_date", optJ .str x.announced_date),
        ("source_url", optJ .str x.source_url)]

/-! ### SocialAccount / Communications -/

def platforms : List String :=
  ["X", "LinkedIn", "Instagram", "YouTube", "Facebook", "TikTok", "Other"]

structure SocialAccount where
  platform : String
  url : String
  handle : Option String
  followers : Option ℤ
  last_post_date : Option String
  active : Option Bool
  source_url : Option String
deriving Repr, DecidableEq

def SocialAccount.errs : JValue → List VError
  | .obj fs =>
      req fs "platform" (litSE platforms) ++
      req fs "url" strE ++
      dfl fs "handle" (optE strE) ++
      dfl fs "followers" (optE (intE (some 0) none)) ++
      dfl fs "last_post_date" (optE strE) ++
      dfl fs "active" (optE boolE) ++
      dfl fs "source_url" (optE strE)
  | v => [⟨[], .structural, v⟩]

def SocialAccount.parse : JValue → SocialAccount
  | .obj fs =>
      { platform := getP fs "platform" strP ""
        url := getP fs "url" strP ""
        handle := getP fs "handle" (optP strP) none
        followers := getP fs "followers" (optP intP) none
        last_post_date := getP fs "last_post_date" (optP strP) none
        active := getP fs "active" (optP boolP) none
        source_url := getP fs "source_url" (optP strP) none }
  | _ => { platform := "", url := "", handle := none, followers := none,
           last_post_date := none, active := none, source_url := none }

def SocialAccount.toJ (x : SocialAccount) : JValue :=
  .obj [("platform", .str x.platform),
        ("url", .str x.url),
        ("handle", optJ .str x.handle),
        ("followers", optJ (fun n : ℤ => JValue.num (n : ℚ)) x.followers),
        ("last_post_date", optJ .str x.last_post_date),
        ("active", optJ .bool x.active),
        ("source_url", optJ .str x.source_url)]

structure Communications where
  owned_media_urls : List String
  social_accounts : List SocialAccount
  source_url : Option String
  last_verified_at : Option String
deriving Repr, DecidableEq

/-- The instance built by the `default_factory=Communications` of the root model. -/
def Communications.init : Communications :=
  { owned_media_urls := [], social_accounts := [], source_url := none,
    last_verified_at := none }

def Communications.errs : JValue → List VError
  | .obj fs =>
      dfl fs "owned_media_urls" (listE strE) ++
      dfl fs "social_accounts" (listE SocialAccount.errs) ++
      dfl fs "source_url" (optE strE) ++
      dfl fs "last_verified_at" (optE strE)
  | v => [⟨[], .structural, v⟩]

def Communications.parse : JValue → Communications
  | .obj fs =>
      { owned_media_urls := getP fs "owned_media_urls" (listP strP) []
        social_accounts := getP fs "social_accounts" (listP SocialAccount.parse) []
        source_url := getP fs "source_url" (optP strP) none
        last_verified_at := getP fs "last_verified_at" (optP strP) none }
  | _ => Communications.init

def Communications.toJ (x : Communications) : JValue :=
  .obj [("owned_media_urls", .arr (x.owned_media_urls.map .str)),
        ("social_accounts", .arr (x.social_accounts.map SocialAccount.toJ)),
        ("source_url", optJ .str x.source_url),
        ("last_verified_at", optJ .str x.last_verified_at)]

/-! ### Competitor -/

structure Competitor where
  name : String
  areas : List String
  notes : Option String
  source_url : Option String
deriving Repr, DecidableEq

def Competitor.errs : JValue → List VError
  | .obj fs =>
      req fs "name" strE ++
      dfl fs "areas" (listE strE) ++
      dfl fs "notes" (optE strE) ++
      dfl fs "source_url" (optE strE)
  | v => [⟨[], .structural, v⟩]

def Competitor.parse : JValue → Competitor
  | .obj fs =>
      { name := getP fs "name" strP ""
        areas := getP fs "areas" (listP strP) []
        notes := getP fs "notes" (optP strP) none
        source_url := getP fs "source_url" (optP strP) none }
  | _ => { name := "", areas := [], notes := none, source_url := none }

def Competitor.toJ (x : Competitor) : JValue :=
  .obj [("name", .str x.name),
        ("areas", .arr (x.areas.map .str)),
        ("notes", optJ .str x.notes),
        ("source_url", optJ .str x.source_url)]

/-! ### GroupCompany -/

def relationTypes : List String := ["subsidiary", "affiliate", "joint_venture", "other"]

structure GroupCompany where
  name : String
  relation_type : Option String
  ownership_ratio : Option ℚ
  is_listed : Option Bool
  ticker_code : Option ℤ
  market : Option String
  corporate_number : Option String
  headquarters_pref : Option String
  founded_year : Option ℤ
  capital_yen : Option ℤ
  employees : Option ℤ
  business_summary : Option String
  notes : Option String
  source_url : Option String
deriving Repr, DecidableEq

def GroupCompany.errs : JValue → List VError
  | .obj fs =>
      req fs "name" strE ++
      dfl fs "relation_type" (optE (litSE relationTypes)) ++
      dfl fs "ownership_ratio" (optE (floatE (some 0) (some 1))) ++
      dfl fs "is_listed" (optE boolE) ++
      dfl fs "ticker_code" (optE (intE (some 1000) (some 9999))) ++
      dfl fs "market" (optE (litSE markets)) ++
      dfl fs "corporate_number" (optE strE) ++
      dfl fs "headquarters_pref" (optE (litSE prefectures)) ++
      dfl fs "founded_year" (optE (intE (some 1600) (some 2100))) ++
      dfl fs "capital_yen" (optE (intE (some 0) none)) ++
      dfl fs "employees" (optE (intE (some 0) none)) ++
      dfl fs "business_summary" (optE strE) ++
      dfl fs "notes" (optE strE) ++
      dfl fs "source_url" (optE strE)
  | v => [⟨[], .structural, v⟩]

def GroupCompany.parse : JValue → GroupCompany
  | .obj fs =>
      { name := getP fs "name" strP ""
        relation_type := getP fs "relation_type" (optP strP) none
        ownership_ratio := getP fs "ownership_ratio" (optP floatP) none
        is_listed := getP fs "is_listed" (optP boolP) none
        ticker_code := getP fs "ticker_code" (optP intP) none
        market := getP fs "market" (optP strP) none
        corporate_number := getP fs "corporate_number" (optP strP) none
        headquarters_pref := getP fs "headquarters_pref" (optP strP) none
        founded_year := getP fs "founded_year" (optP intP) none
        capital_yen := getP fs "capital_yen" (optP intP) none
        employees := getP fs "employees" (optP intP) none
        business_summary := getP fs "business_summary" (optP strP) none
        notes := getP fs "notes" (optP strP) none
        source_url := getP fs "source_url" (optP strP) none }
  | _ => { name := "", relation_type := none, ownership_ratio := none, is_listed := none,
           ticker_code := none, market := none, corporate_number := none,
           headquarters_pref := none, founded_year := none, capital_yen := none,
           employees := none, business_summary := none, notes := none, source_url := none }

def GroupCompany.toJ (x : GroupCompany) : JValue :=
  .obj [("name", .str x.name),
        ("relation_type", optJ .str x.relation_type),
        ("ownership_ratio", optJ (fun q : ℚ => JValue.num q) x.ownership_ratio),
        ("is_listed", optJ .bool x.is_listed),
        ("ticker_code", optJ (fun n : ℤ => JValue.num (n : ℚ)) x.ticker_code),
        ("market", optJ .str x.market),
        ("corporate_number", optJ .str x.corporate_number),
        ("headquarters_pref", optJ .str x.headquarters_pref),
        ("founded_year", optJ (fun n : ℤ => JValue.num (n : ℚ)) x.founded_year),
        ("capital_yen", optJ (fun n : ℤ => JValue.num (n : ℚ)) x.capital_yen),
        ("employees", optJ (fun n : ℤ => JValue.num (n : ℚ)) x.employees),
        ("business_summary", optJ .str x.business_summary),
        ("notes", optJ .str x.notes),
        ("source_url", optJ .str x.source_url)]

/-! ### CompanyProfile (root) -/

structure CompanyProfile where
  basic : CompanyBasic
  financials : Financials
  org_signals : List OrgSignal
  communications : Communications
  competitors : List Competitor
  group_companies : List GroupCompany
  source_url : Option String
  last_verified_at : Option String
  confidence : Option ℚ
deriving Repr, DecidableEq

def CompanyProfile.errs : JValue → List VError
  | .obj fs =>
      req fs "basic" CompanyBasic.errs ++
      dfl fs "financials" Financials.errs ++
      dfl fs "org_signals" (listE OrgSignal.errs) ++
      dfl fs "communications" Communications.errs ++
      dfl fs "competitors" (listE Competitor.errs) ++
      dfl fs "group_companies" (listE GroupCompany.errs) ++
      dfl fs "source_url" (optE strE) ++
      dfl fs "last_verified_at" (optE strE) ++
      dfl fs "confidence" (optE (floatE (some 0) (some 1)))
  | v => [⟨[], .structural, v⟩]

def CompanyProfile.parse : JValue → CompanyProfile
  | .obj fs =>
      { basic := getP fs "basic" CompanyBasic.parse (CompanyBasic.parse .null)
        financials := getP fs "financials" Financials.parse Financials.init
        org_signals := getP fs "org_signals" (listP OrgSignal.parse) []
        communications := getP fs "communications" Communications.parse Communications.init
        competitors := getP fs "competitors" (listP Competitor.parse) []
        group_companies := getP fs "group_companies" (listP GroupCompany.parse) []
        source_url := getP fs "source_url" (optP strP) none
        last_verified_at := getP fs "last_verified_at" (optP strP) none
        confidence := getP fs "confidence" (optP floatP) none }
  | _ => { basic := CompanyBasic.parse .null, financials := Financials.init,
           org_signals := [], communications := Communications.init, competitors := [],
           group_companies := [], source_url := none, last_verified_at := none,
           confidence := none }

def CompanyProfile.toJ (x : CompanyProfile) : JValue :=
  .obj [("basic", x.basic.toJ),
        ("financials", x.financials.toJ),
        ("org_signals", .arr (x.org_signals.map OrgSignal.toJ)),
        ("communications", x.communications.toJ),
        ("competitors", .arr (x.competitors.map Competitor.toJ)),
        ("group_companies", .arr (x.group_companies.map GroupCompany.toJ)),
        ("source_url", optJ .str x.source_url),
        ("last_verified_at", optJ .str x.last_verified_at),
        ("confidence", optJ (fun q : ℚ => JValue.num q) x.confidence)]

/-- Validation of a candidate document against the `CompanyProfile` model:
either the fully-typed profile, or the complete list of violations. -/
def validate (v : JValue) : Except (List VError) CompanyProfile :=
  match CompanyProfile.errs v with
  | [] => .ok (CompanyProfile.parse v)
  | es => .error es

/-! ### Fully-defaulted instances (convenient literals for expected outputs) -/

/-- An `Executive` with the two required fields set and all defaults. -/
def Executive.init (nm ttl : String) : Executive :=
  { name := nm, title := ttl, career_summary := none, responsibility := none,
    start_date := none, end_date := none, source_url := none }

/-- A `CompanyBasic` with only the company name set and all defaults. -/
def CompanyBasic.init (nm : String) : CompanyBasic :=
  { company_name := nm, ticker_code := none, market := none, corporate_number := none,
    headquarters_pref := none, founded_year := none, capital_yen := none,
    employees_consolidated := none, executives := [], accounting_standard := none,
    fiscal_year_start_month := none, source_url := none }

/-- An annual `FiscalPeriod` for one fiscal year, all optionals defaulted. -/
def FiscalPeriod.annual (y : ℤ) : FiscalPeriod :=
  { period_type := "annual", fiscal_year := y, quarter := none,
    period_start := none, period_end := none }

/-- A `FinancialRecord` with only the required period set and all defaults. -/
def FinancialRecord.init (p : FiscalPeriod) : FinancialRecord :=
  { period := p, is_consolidated := some true, is_cumulative := some true,
    restated := some false, revenue_yen := none, op_income_yen := none,
    ordinary_income_yen := none, ebitda_yen := none, net_income_yen := none,
    eps_yen := none, total_assets_yen := none, net_assets_yen := none,
    equity_ratio := none, interest_bearing_debt_yen := none, roe := none, roa := none,
    segment_revenue_ratio := [], segment_revenue_yen := [], notes := none,
    source_url := none }

/-- An `OrgSignal` with only the required title set. -/
def OrgSignal.init (ttl : String) : OrgSignal :=
  { event_type := none, title := ttl, announced_date := none, source_url := none }

/-- A `SocialAccount` with only the required platform and url set. -/
def SocialAccount.init (pf u : String) : SocialAccount :=
  { platform := pf, url := u, handle := none, followers := none,
    last_post_date := none, active := none, source_url := none }

/-- A `Competitor` with only the required name set. -/
def Competitor.init (nm : String) : Competitor :=
  { name := nm, areas := [], notes := none, source_url := none }

/-- A `GroupCompany` with only the required name set. -/
def GroupCompany.init (nm : String) : GroupCompany :=
  { name := nm, relation_type := none, ownership_ratio := none, is_listed := none,
    ticker_code := none, market := none, corporate_number := none,
    headquarters_pref := none, founded_year := none, capital_yen := none,
    employees := none, business_summary := none, notes := none, source_url := none }

/-- The profile produced for a document carrying only `basic.company_name`. -/
def CompanyProfile.init (nm : String) : CompanyProfile :=
  { basic := CompanyBasic.init nm, financials := Financials.init, org_signals := [],
    communications := Communications.init, competitors := [], group_companies := [],
    source_url := none, last_verified_at := none, confidence := none }

/-- The minimal document: only `basic.company_name` is set. -/
def minimalDoc : JValue := .obj [("basic", .obj [("company_name", .str "X")])]

/-! ### Documents and expected profiles used by the claim theorems -/

/-- A document setting `source_url` at the root and on one executive. -/
def docSourceUrl (v : JValue) : JValue :=
  .obj [("basic", .obj [("company_name", .str "X"),
          ("executives", .arr [.obj [("name", .str "N"), ("title", .str "T"),
                                     ("source_url", v)]])]),
        ("source_url", v)]

/-- The profile expected from `docSourceUrl (.str s)`. -/
def profileSourceUrl (s : String) : CompanyProfile :=
  { CompanyProfile.init "X" with
    basic := { CompanyBasic.init "X" with
               executives := [{ Executive.init "N" "T" with source_url := some s }] }
    source_url := some s }

/-- A document setting `corporate_number` on `basic` and on one group company. -/
def docCorpNum (v : JValue) : JValue :=
  .obj [("basic", .obj [("company_name", .str "X"), ("corporate_number", v)]),
        ("group_companies", .arr [.obj [("name", .str "G"), ("corporate_number", v)]])]

/-- A `FiscalPeriod` document with the given period_type, year and quarter value. -/
def periodDoc (pt : String) (y : ℚ) (qv : JValue) : JValue :=
  .obj [("period_type", .str pt), ("fiscal_year", .num y), ("quarter", qv)]

/-- A document whose required strings are all empty. -/
def emptyStringsDoc : JValue :=
  .obj [("basic", .obj [("company_name", .str ""),
          ("executives", .arr [.obj [("name", .str ""), ("title", .str "")]])]),
        ("org_signals", .arr [.obj [("title", .str "")]]),
        ("communications", .obj [("social_accounts",
            .arr [.obj [("platform", .str "X"), ("url", .str "")]])]),
        ("competitors", .arr [.obj [("name", .str "")]]),
        ("group_companies", .arr [.obj [("name", .str "")]])]

/-- The profile expected from `emptyStringsDoc`. -/
def emptyStringsProfile : CompanyProfile :=
  { CompanyProfile.init "" with
    basic := { CompanyBasic.init "" with executives := [Executive.init "" ""] }
    org_signals := [OrgSignal.init ""]
    communications := { Communications.init with
                        social_accounts := [SocialAccount.init "X" ""] }
    competitors := [Competitor.init ""]
    group_companies := [GroupCompany.init ""] }

/-- The nine field names declared on the root model. -/
def rootFieldNames : List String :=
  ["basic", "financials", "org_signals", "communications", "competitors",
   "group_companies", "source_url", "last_verified_at", "confidence"]

/-- A document setting `basic.headquarters_pref`. -/
def docPref (s : String) : JValue :=
  .obj [("basic", .obj [("company_name", .str "A"), ("headquarters_pref", .str s)])]

/-- A document setting `basic.market`. -/
def docMarket (s : String) : JValue :=
  .obj [("basic", .obj [("company_name", .str "A"), ("market", .str s)])]

/-- A document setting `basic.accounting_standard`. -/
def docAccStd (s : String) : JValue :=
  .obj [("basic", .obj [("company_name", .str "A"), ("accounting_standard", .str s)])]

/-- A document setting `org_signals[0].event_type`. -/
def docEventType (s : String) : JValue :=
  .obj [("basic", .obj [("company_name", .str "A")]),
        ("org_signals", .arr [.obj [("event_type", .str s), ("title", .str "t")]])]

/-- A document setting `group_companies[0].relation_type`. -/
def docRelType (s : String) : JValue :=
  .obj [("basic", .obj [("company_name", .str "A")]),
        ("group_companies", .arr [.obj [("name", .str "G"), ("relation_type", .str s)]])]

/-- A document setting `communications.social_accounts[0].platform`. -/
def docPlatform (s : String) : JValue :=
  .obj [("basic", .obj [("company_name", .str "A")]),
        ("communications", .obj [("social_accounts", .arr
          [.obj [("platform", .str s), ("url", .str "https://example.com/a")]])])]

/-- A document setting `basic.ticker_code`. -/
def docTicker (n : ℤ) : JValue :=
  .obj [("basic", .obj [("company_name", .str "A"), ("ticker_code", .num (n : ℚ))])]

/-- A document setting `basic.founded_year`. -/
def docFoundedYear (n : ℤ) : JValue :=
  .obj [("basic", .obj [("company_name", .str "A"), ("founded_year", .num (n : ℚ))])]

/-- A document setting `basic.fiscal_year_start_month`. -/
def docStartMonth (n : ℤ) : JValue :=
  .obj [("basic", .obj [("company_name", .str "A"),
                        ("fiscal_year_start_month", .num (n : ℚ))])]

/-- A document setting `basic.capital_yen`. -/
def docCapital (n : ℤ) : JValue :=
  .obj [("basic", .obj [("company_name", .str "A"), ("capital_yen", .num (n : ℚ))])]

/-- A document setting the root `confidence`. -/
def docConfidence (q : ℚ) : JValue :=
  .obj [("basic", .obj [("company_name", .str "A")]), ("confidence", .num q)]

/-- A document setting `group_companies[0].ownership_ratio`. -/
def docOwnership (q : ℚ) : JValue :=
  .obj [("basic", .obj [("company_name", .str "A")]),
        ("group_companies", .arr [.obj [("name", .str "G"), ("ownership_ratio", .num q)]])]

/-- A document with one financial record for FY2024 plus extra record fields. -/
def finDoc (extra : List (String × JValue)) : JValue :=
  .obj [("basic", .obj [("company_name", .str "A")]),
        ("financials", .obj [("records", .arr
          [.obj (("period", periodDoc "annual" 2024 .null) :: extra)])])]

/-- A document with one financial record whose period has the given year. -/
def finDocFY (n : ℤ) : JValue :=
  .obj [("basic", .obj [("company_name", .str "A")]),
        ("financials", .obj [("records", .arr
          [.obj [("period", .obj [("period_type", .str "annual"),
                                  ("fiscal_year", .num (n : ℚ))])]])])]

/-- A document setting every yen-denominated float of one financial record. -/
def docYen (q : ℚ) : JValue :=
  finDoc [("revenue_yen", .num q), ("op_income_yen", .num q),
          ("ordinary_income_yen", .num q), ("ebitda_yen", .num q),
          ("net_income_yen", .num q), ("eps_yen", .num q),
          ("total_assets_yen", .num q), ("net_assets_yen", .num q),
          ("interest_bearing_debt_yen", .num q),
          ("segment_revenue_yen", .arr [.obj [("name", .str "S"), ("amount_yen", .num q)]])]

/-- A profile holding exactly one financial record. -/
def profileRec (r : FinancialRecord) : CompanyProfile :=
  { CompanyProfile.init "A" with
    financials := { Financials.init with records := [r] } }

/-- A document with hard violations spread across several subtrees:
a missing required company_name, an out-of-range ticker, a bad prefecture
enum, an out-of-range roe, a bad platform enum, a missing social-account url
and an out-of-range confidence. -/
def multiErrorDoc : JValue :=
  .obj [("basic", .obj [("headquarters_pref", .str "Tokyo"),
                        ("ticker_code", .num 123)]),
        ("financials", .obj [("records", .arr [
            .obj [("period", periodDoc "annual" 2024 .null), ("roe", .num 2)]])]),
        ("communications", .obj [("social_accounts", .arr [
            .obj [("platform", .str "Twitter")]])]),
        ("confidence", .num 2)]

/-! ### Helper lemmas about `validate` -/

theorem validate_ok {v : JValue} {p : CompanyProfile} (h : validate v = .ok p) :
    CompanyProfile.errs v = [] ∧ p = CompanyProfile.parse v := by
  unfold validate at h
  split at h
  · exact ⟨by assumption, by injection h with h2; exact h2.symm⟩
  · cases h

theorem validate_error {v : JValue} {es : List VError} (h : validate v = .error es) :
    es = CompanyProfile.errs v ∧ es ≠ [] := by
  unfold validate at h
  split at h
  · cases h
  · next hne =>
      injection h with h2
      exact ⟨h2.symm, fun hes => hne (h2.trans hes)⟩

theorem jLookup_append_single {k name : String} (x : JValue) (h : name ≠ k) :
    ∀ fs, jLookup (fs ++ [(k, x)]) name = jLookup fs name := by
  intro fs
  induction fs with
  | nil => simp [jLookup, Ne.symm h]
  | cons kv rest ih => cases kv with | mk k0 v0 => simp [jLookup, ih]

/-! ### No combinator ever produces a `format` error -/

theorem noFormat_reroot {s : String} {es : List VError}
    (h : ∀ e ∈ es, e.kind ≠ ErrKind.format) :
    ∀ e ∈ reroot s es, e.kind ≠ ErrKind.format := by
  intro e he
  simp only [reroot, List.mem_map] at he
  obtain ⟨e0, he0, rfl⟩ := he
  exact h e0 he0

theorem noFormat_strE : ∀ v : JValue, ∀ e ∈ strE v, e.kind ≠ ErrKind.format := by
  intro v e he
  cases v <;> simp only [strE] at he <;> first
    | (split_ifs at he <;> simp_all)
    | simp_all

theorem noFormat_boolE : ∀ v : JValue, ∀ e ∈ boolE v, e.kind ≠ ErrKind.format := by
  intro v e he
  cases v <;> simp only [boolE] at he <;> first
    | (split_ifs at he <;> simp_all)
    | simp_all

theorem noFormat_intE (lo hi : Option ℤ) :
    ∀ v : JValue, ∀ e ∈ intE lo hi v, e.kind ≠ ErrKind.format := by
  intro v e he
  cases v <;> simp only [intE] at he <;> first
    | (split_ifs at he <;> simp_all)
    | simp_all

theorem noFormat_floatE (lo hi : Option ℚ) :
    ∀ v : JValue, ∀ e ∈ floatE lo hi v, e.kind ≠ ErrKind.format := by
  intro v e he
  cases v <;> simp only [floatE] at he <;> first
    | (split_ifs at he <;> simp_all)
    | simp_all

theorem noFormat_litSE (allowed : List String) :
    ∀ v : JValue, ∀ e ∈ litSE allowed v, e.kind ≠ ErrKind.format := by
  intro v e he
  cases v <;> simp only [litSE] at he <;> first
    | (split_ifs at he <;> simp_all)
    | simp_all

theorem noFormat_litIE (allowed : List ℤ) :
    ∀ v : JValue, ∀ e ∈ litIE allowed v, e.kind ≠ ErrKind.format := by
  intro v e he
  cases v <;> simp only [litIE] at he <;> first
    | (split_ifs at he <;> simp_all)
    | simp_all

theorem noFormat_optE {inner : JValue → List VError}
    (h : ∀ v, ∀ e ∈ inner v, e.kind ≠ ErrKind.format) :
    ∀ v : JValue, ∀ e ∈ optE inner v, e.kind ≠ ErrKind.format := by
  intro v e he
  cases v <;> simp [optE] at he <;> first
    | cases he
    | exact h _ e he

theorem noFormat_listEFrom {inner : JValue → List VError}
    (h : ∀ v, ∀ e ∈ inner v, e.kind ≠ ErrKind.format) :
    ∀ (i : ℕ) (xs : List JValue), ∀ e ∈ listEFrom inner i xs, e.kind ≠ ErrKind.format := by
  intro i xs
  induction xs generalizing i with
  | nil => intro e he; cases he
  | cons x rest ih =>
      intro e he
      simp only [listEFrom, List.mem_append] at he
      rcases he with he | he
      · exact noFormat_reroot (h x) e he
      · exact ih _ e he

theorem noFormat_listE {inner : JValue → List VError}
    (h : ∀ v, ∀ e ∈ inner v, e.kind ≠ ErrKind.format) :
    ∀ v : JValue, ∀ e ∈ listE inner v, e.kind ≠ ErrKind.format := by
  intro v e he
  cases v <;> simp only [listE] at he <;> first
    | (simp at he; simp [he])
    | exact noFormat_listEFrom h _ _ e he

theorem noFormat_req {fs : List (String × JValue)} {name : String}
    {inner : JValue → List VError}
    (h : ∀ v, ∀ e ∈ inner v, e.kind ≠ ErrKind.format) :
    ∀ e ∈ req fs name inner, e.kind ≠ ErrKind.format := by
  intro e he
  unfold req at he
  cases hl : jLookup fs name with
  | some fv => rw [hl] at he; exact noFormat_reroot (h fv) e he
  | none => rw [hl] at he; simp at he; simp [he]

theorem noFormat_dfl {fs : List (String × JValue)} {name : String}
    {inner : JValue → List VError}
    (h : ∀ v, ∀ e ∈ inner v, e.kind ≠ ErrKind.format) :
    ∀ e ∈ dfl fs name inner, e.kind ≠ ErrKind.format := by
  intro e he
  unfold dfl at he
  cases hl : jLookup fs name with
  | some fv => rw [hl] at he; exact noFormat_reroot (h fv) e he
  | none => rw [hl] at he; cases he

theorem noFormat_SegmentRatio :
    ∀ v, ∀ e ∈ SegmentRatio.errs v, e.kind ≠ ErrKind.format := by
  intro v e he
  cases v <;> simp only [SegmentRatio.errs, List.mem_append, or_assoc] at he
  case obj fs =>
    rcases he with h | h
    · exact noFormat_req noFormat_strE e h
    · exact noFormat_req (noFormat_floatE _ _) e h
  all_goals (simp at he; simp [he])

theorem noFormat_SegmentAmount :
    ∀ v, ∀ e ∈ SegmentAmount.errs v, e.kind ≠ ErrKind.format := by
  intro v e he
  cases v <;> simp only [SegmentAmount.errs, List.mem_append, or_assoc] at he
  case obj fs =>
    rcases he with h | h
    · exact noFormat_req noFormat_strE e h
    · exact noFormat_req (noFormat_floatE _ _) e h
  all_goals (simp at he; simp [he])

theorem noFormat_FiscalPeriod :
    ∀ v, ∀ e ∈ FiscalPeriod.errs v, e.kind ≠ ErrKind.format := by
  intro v e he
  cases v <;> simp only [FiscalPeriod.errs, List.mem_append, or_assoc] at he
  case obj fs =>
    rcases he with h | h | h | h | h
    · exact noFormat_req (noFormat_litSE _) e h
    · exact noFormat_req (noFormat_intE _ _) e h
    · exact noFormat_dfl (noFormat_optE (noFormat_litIE _)) e h
    · exact noFormat_dfl (noFormat_optE noFormat_strE) e h
    · exact noFormat_dfl (noFormat_optE noFormat_strE) e h
  all_goals (simp at he; simp [he])

theorem noFormat_Executive :
    ∀ v, ∀ e ∈ Executive.errs v, e.kind ≠ ErrKind.format := by
  intro v e he
  cases v <;> simp only [Executive.errs, List.mem_append, or_assoc] at he
  case obj fs =>
    rcases he with h | h | h | h | h | h | h
    · exact noFormat_req noFormat_strE e h
    · exact noFormat_req noFormat_strE e h
    all_goals exact noFormat_dfl (noFormat_optE noFormat_strE) e h
  all_goals (simp at he; simp [he])

theorem noFormat_CompanyBasic :
    ∀ v, ∀ e ∈ CompanyBasic.errs v, e.kind ≠ ErrKind.format := by
  intro v e he
  cases v <;> simp only [CompanyBasic.errs, List.mem_append, or_assoc] at he
  case obj fs =>
    rcases he with h | h | h | h | h | h | h | h | h | h | h | h
    · exact noFormat_req noFormat_strE e h
    · exact noFormat_dfl (noFormat_optE (noFormat_intE _ _)) e h
    · exact noFormat_dfl (noFormat_optE (noFormat_litSE _)) e h
    · exact noFormat_dfl (noFormat_optE noFormat_strE) e h
    · exact noFormat_dfl (noFormat_optE (noFormat_litSE _)) e h
    · exact noFormat_dfl (noFormat_optE (noFormat_intE _ _)) e h
    · exact noFormat_dfl (noFormat_optE (noFormat_intE _ _)) e h
    · exact noFormat_dfl (noFormat_optE (noFormat_intE _ _)) e h
    · exact noFormat_dfl (noFormat_listE noFormat_Executive) e h
    · exact noFormat_dfl (noFormat_optE (noFormat_litSE _)) e h
    · exact noFormat_dfl (noFormat_optE (noFormat_intE _ _)) e h
    · exact noFormat_dfl (noFormat_optE noFormat_strE) e h
  all_goals (simp at he; simp [he])

theorem noFormat_FinancialRecord :
    ∀ v, ∀ e ∈ FinancialRecord.errs v, e.kind ≠ ErrKind.format := by
  intro v e he
  cases v <;> simp only [FinancialRecord.errs, List.mem_append, or_assoc] at he
  case obj fs =>
    rcases he with h | h | h | h | h | h | h | h | h | h | h | h | h | h | h | h | h | h | h | h
    · exact noFormat_req noFormat_FiscalPeriod e h
    · exact noFormat_dfl (noFormat_optE noFormat_boolE) e h
    · exact noFormat_dfl (noFormat_optE noFormat_boolE) e h
    · exact noFormat_dfl (noFormat_optE noFormat_boolE) e h
    · exact noFormat_dfl (noFormat_optE (noFormat_floatE _ _)) e h
    · exact noFormat_dfl (noFormat_optE (noFormat_floatE _ _)) e h
    · exact noFormat_dfl (noFormat_optE (noFormat_floatE _ _)) e h
    · exact noFormat_dfl (noFormat_optE (noFormat_floatE _ _)) e h
    · exact noFormat_dfl (noFormat_optE (noFormat_floatE _ _)) e h
    · exact noFormat_dfl (noFormat_optE (noFormat_floatE _ _)) e h
    · exact noFormat_dfl (noFormat_optE (noFormat_floatE _ _)) e h
    · exact noFormat_dfl (noFormat_optE (noFormat_floatE _ _)) e h
    · exact noFormat_dfl (noFormat_optE (noFormat_floatE _ _)) e h
    · exact noFormat_dfl (noFormat_optE (noFormat_floatE _ _)) e h
    · exact noFormat_dfl (noFormat_optE (noFormat_floatE _ _)) e h
    · exact noFormat_dfl (noFormat_optE (noFormat_floatE _ _)) e h
    · exact noFormat_dfl (noFormat_listE noFormat_SegmentRatio) e h
    · exact noFormat_dfl (noFormat_listE noFormat_SegmentAmount) e h
    · exact noFormat_dfl (noFormat_optE noFormat_strE) e h
    · exact noFormat_dfl (noFormat_optE noFormat_strE) e h
  all_goals (simp at he; simp [he])

theorem noFormat_Financials :
    ∀ v, ∀ e ∈ Financials.errs v, e.kind ≠ ErrKind.format := by
  intro v e he
  cases v <;> simp only [Financials.errs, List.mem_append, or_assoc] at he
  case obj fs =>
    rcases he with h | h | h
    · exact noFormat_dfl (noFormat_listE noFormat_FinancialRecord) e h
    · exact noFormat_dfl (noFormat_optE noFormat_strE) e h
    · exact noFormat_dfl (noFormat_optE noFormat_strE) e h
  all_goals (simp at he; simp [he])

theorem noFormat_OrgSignal :
    ∀ v, ∀ e ∈ OrgSignal.errs v, e.kind ≠ ErrKind.format := by
  intro v e he
  cases v <;> simp only [OrgSignal.errs, List.mem_append, or_assoc] at he
  case obj fs =>
    rcases he with h | h | h | h
    · exact noFormat_dfl (noFormat_optE (noFormat_litSE _)) e h
    · exact noFormat_req noFormat_strE e h
    · exact noFormat_dfl (noFormat_optE noFormat_strE) e h
    · exact noFormat_dfl (noFormat_optE noFormat_strE) e h
  all_goals (simp at he; simp [he])

theorem noFormat_SocialAccount :
    ∀ v, ∀ e ∈ SocialAccount.errs v, e.kind ≠ ErrKind.format := by
  intro v e he
  cases v <;> simp only [SocialAccount.errs, List.mem_append, or_assoc] at he
  case obj fs =>
    rcases he with h | h | h | h | h | h | h
    · exact noFormat_req (noFormat_litSE _) e h
    · exact noFormat_req noFormat_strE e h
    · exact noFormat_dfl (noFormat_optE noFormat_strE) e h
    · exact noFormat_dfl (noFormat_optE (noFormat_intE _ _)) e h
    · exact noFormat_dfl (noFormat_optE noFormat_strE) e h
    · exact noFormat_dfl (noFormat_optE noFormat_boolE) e h
    · exact noFormat_dfl (noFormat_optE noFormat_strE) e h
  all_goals (simp at he; simp [he])

theorem noFormat_Communications :
    ∀ v, ∀ e ∈ Communications.errs v, e.kind ≠ ErrKind.format := by
  intro v e he
  cases v <;> simp only [Communications.errs, List.mem_append, or_assoc] at he
  case obj fs =>
    rcases he with h | h | h | h
    · exact noFormat_dfl (noFormat_listE noFormat_strE) e h
    · exact noFormat_dfl (noFormat_listE noFormat_SocialAccount) e h
    · exact noFormat_dfl (noFormat_optE noFormat_strE) e h
    · exact noFormat_dfl (noFormat_optE noFormat_strE) e h
  all_goals (simp at he; simp [he])

theorem noFormat_Competitor :
    ∀ v, ∀ e ∈ Competitor.errs v, e.kind ≠ ErrKind.format := by
  intro v e he
  cases v <;> simp only [Competitor.errs, List.mem_append, or_assoc] at he
  case obj fs =>
    rcases he with h | h | h | h
    · exact noFormat_req noFormat_strE e h
    · exact noFormat_dfl (noFormat_listE noFormat_strE) e h
    · exact noFormat_dfl (noFormat_optE noFormat_strE) e h
    · exact noFormat_dfl (noFormat_optE noFormat_strE) e h
  all_goals (simp at he; simp [he])

theorem noFormat_GroupCompany :
    ∀ v, ∀ e ∈ GroupCompany.errs v, e.kind ≠ ErrKind.format := by
  intro v e he
  cases v <;> simp only [GroupCompany.errs, List.mem_append, or_assoc] at he
  case obj fs =>
    rcases he with h | h | h | h | h | h | h | h | h | h | h | h | h | h
    · exact noFormat_req noFormat_strE e h
    · exact noFormat_dfl (noFormat_optE (noFormat_litSE _)) e h
    · exact noFormat_dfl (noFormat_optE (noFormat_floatE _ _)) e h
    · exact noFormat_dfl (noFormat_optE noFormat_boolE) e h
    · exact noFormat_dfl (noFormat_optE (noFormat_intE _ _)) e h
    · exact noFormat_dfl (noFormat_optE (noFormat_litSE _)) e h
    · exact noFormat_dfl (noFormat_optE noFormat_strE) e h
    · exact noFormat_dfl (noFormat_optE (noFormat_litSE _)) e h
    · exact noFormat_dfl (noFormat_optE (noFormat_intE _ _)) e h
    · exact noFormat_dfl (noFormat_optE (noFormat_intE _ _)) e h
    · exact noFormat_dfl (noFormat_optE (noFormat_intE _ _)) e h
    · exact noFormat_dfl (noFormat_optE noFormat_strE) e h
    · exact noFormat_dfl (noFormat_optE noFormat_strE) e h
    · exact noFormat_dfl (noFormat_optE noFormat_strE) e h
  all_goals (simp at he; simp [he])

theorem noFormat_CompanyProfile :
    ∀ v, ∀ e ∈ CompanyProfile.errs v, e.kind ≠ ErrKind.format := by
  intro v e he
  cases v <;> simp only [CompanyProfile.errs, List.mem_append, or_assoc] at he
  case obj fs =>
    rcases he with h | h | h | h | h | h | h | h | h
    · exact noFormat_req noFormat_CompanyBasic e h
    · exact noFormat_dfl noFormat_Financials e h
    · exact noFormat_dfl (noFormat_listE noFormat_OrgSignal) e h
    · exact noFormat_dfl noFormat_Communications e h
    · exact noFormat_dfl (noFormat_listE noFormat_Competitor) e h
    · exact noFormat_dfl (noFormat_listE noFormat_GroupCompany) e h
    · exact noFormat_dfl (noFormat_optE noFormat_strE) e h
    · exact noFormat_dfl (noFormat_optE noFormat_strE) e h
    · exact noFormat_dfl (noFormat_optE (noFormat_floatE _ _)) e h
  all_goals (simp at he; simp [he])

/-! ### Claim C3 -/

/-- Claim C3: a document that validation accepts has all defaults applied:
omitted optional scalars at the root resolve to `none`, omitted lists to `[]`,
omitted `financials`/`communications` to their default-constructed instances;
and the minimal document carrying only `basic.company_name` validates to the
fully-defaulted profile. -/
theorem defaults_applied :
    validate minimalDoc = .ok (CompanyProfile.init "X") ∧
    (∀ fs p, validate (.obj fs) = .ok p →
      (jLookup fs "financials" = none → p.financials = Financials.init) ∧
      (jLookup fs "communications" = none → p.communications = Communications.init) ∧
      (jLookup fs "org_signals" = none → p.org_signals = []) ∧
      (jLookup fs "competitors" = none → p.competitors = []) ∧
      (jLookup fs "group_companies" = none → p.group_companies = []) ∧
      (jLookup fs "source_url" = none → p.source_url = none) ∧
      (jLookup fs "last_verified_at" = none → p.last_verified_at = none) ∧
      (jLookup fs "confidence" = none → p.confidence = none)) := by
  refine ⟨rfl, ?_⟩
  intro fs p h
  obtain ⟨-, hp⟩ := validate_ok h
  subst hp
  refine ⟨?_, ?_, ?_, ?_, ?_, ?_, ?_, ?_⟩ <;>
    (intro hl; simp [CompanyProfile.parse, getP, hl])

/-- Witness for C3 at the minimal document. -/
theorem defaults_applied_witness :
    (CompanyProfile.parse minimalDoc).financials = Financials.init ∧
    (CompanyProfile.parse minimalDoc).org_signals = [] ∧
    (CompanyProfile.parse minimalDoc).confidence = none := by
  have h := (defaults_applied.2 [("basic", .obj [("company_name", .str "X")])]
      (CompanyProfile.init "X") defaults_applied.1)
  exact ⟨(h.1 rfl).symm ▸ (h.1 rfl), (h.2.2.1 rfl).symm ▸ (h.2.2.1 rfl), h.2.2.2.2.2.2.2 rfl⟩

/-! ### Claim C9 -/

/-- Claim C9: required string fields only require presence and string type:
the empty string is accepted for `company_name`, `Executive.name`,
`Executive.title`, `OrgSignal.title`, `Competitor.name`, `GroupCompany.name`
and `SocialAccount.url`, and the resulting profile carries the empty strings. -/
theorem empty_string_accepted :
    validate emptyStringsDoc = .ok emptyStringsProfile := rfl

/-! ### Claim C10 -/

/-- Claim C10: `corporate_number` on `CompanyBasic` and `GroupCompany` is an
unconstrained optional string: any string whatsoever (any length, any
characters) is accepted verbatim, and `null` is accepted as well. -/
theorem corporate_number_unconstrained :
    (∀ s : String, validate (docCorpNum (.str s)) =
      .ok { CompanyProfile.init "X" with
            basic := { CompanyBasic.init "X" with corporate_number := some s }
            group_companies := [{ GroupCompany.init "G" with corporate_number := some s }] }) ∧
    validate (docCorpNum .null) =
      .ok { CompanyProfile.init "X" with
            group_companies := [GroupCompany.init "G"] } := by
  constructor
  · intro s
    simp +decide [validate, docCorpNum, CompanyProfile.errs, CompanyBasic.errs,
      GroupCompany.errs, req, dfl, jLookup, reroot, optE, litSE, strE, intE, floatE,
      boolE, listE, listEFrom, CompanyProfile.parse, CompanyBasic.parse,
      GroupCompany.parse, getP, optP, listP, strP, CompanyProfile.init,
      CompanyBasic.init, GroupCompany.init, Financials.init, Communications.init]
  · rfl

/-! ### Claim C1 -/

/-- Claim C1: every closed-enumeration field (market, platform,
headquarters_pref, relation_type, accounting_standard, event_type) accepts
exactly the members of its declared set and rejects anything else with an
enumeration error on that field's path; `headquarters_pref`'s set is the 47
Japanese prefecture names plus "Other" (48 values), so "東京都" is accepted
and "Tokyo" is rejected. -/
theorem enum_fields_closed :
    (∀ s : String, validate (docPref s) =
      if s ∈ prefectures then
        .ok { CompanyProfile.init "A" with
              basic := { CompanyBasic.init "A" with headquarters_pref := some s } }
      else .error [⟨["basic", "headquarters_pref"], .enum, .str s⟩]) ∧
    (∀ s : String, validate (docMarket s) =
      if s ∈ markets then
        .ok { CompanyProfile.init "A" with
              basic := { CompanyBasic.init "A" with market := some s } }
      else .error [⟨["basic", "market"], .enum, .str s⟩]) ∧
    (∀ s : String, validate (docAccStd s) =
      if s ∈ accountingStandards then
        .ok { CompanyProfile.init "A" with
              basic := { CompanyBasic.init "A" with accounting_standard := some s } }
      else .error [⟨["basic", "accounting_standard"], .enum, .str s⟩]) ∧
    (∀ s : String, validate (docEventType s) =
      if s ∈ eventTypes then
        .ok { CompanyProfile.init "A" with
              org_signals := [{ OrgSignal.init "t" with event_type := some s }] }
      else .error [⟨["org_signals", "0", "event_type"], .enum, .str s⟩]) ∧
    (∀ s : String, validate (docRelType s) =
      if s ∈ relationTypes then
        .ok { CompanyProfile.init "A" with
              group_companies := [{ GroupCompany.init "G" with relation_type := some s }] }
      else .error [⟨["group_companies", "0", "relation_type"], .enum, .str s⟩]) ∧
    (∀ s : String, validate (docPlatform s) =
      if s ∈ platforms then
        .ok { CompanyProfile.init "A" with
              communications := { Communications.init with
                social_accounts := [SocialAccount.init s "https://example.com/a"] } }
      else .error [⟨["communications", "social_accounts", "0", "platform"], .enum, .str s⟩]) ∧
    ("Tokyo" ∉ prefectures ∧ "Other" ∈ prefectures ∧ "東京都" ∈ prefectures ∧
      prefectures.length = 48) := by
  refine ⟨?_, ?_, ?_, ?_, ?_, ?_, by decide⟩
  · intro s
    by_cases h : s ∈ prefectures <;>
      simp +decide [h, validate, docPref, CompanyProfile.errs, CompanyBasic.errs, req, dfl,
        jLookup, reroot, optE, litSE, strE, CompanyProfile.parse, CompanyBasic.parse,
        getP, optP, strP, CompanyProfile.init, CompanyBasic.init, Financials.init,
        Communications.init]
  · intro s
    by_cases h : s ∈ markets <;>
      simp +decide [h, validate, docMarket, CompanyProfile.errs, CompanyBasic.errs, req, dfl,
        jLookup, reroot, optE, litSE, strE, CompanyProfile.parse, CompanyBasic.parse,
        getP, optP, strP, CompanyProfile.init, CompanyBasic.init, Financials.init,
        Communications.init]
  · intro s
    by_cases h : s ∈ accountingStandards <;>
      simp +decide [h, validate, docAccStd, CompanyProfile.errs, CompanyBasic.errs, req, dfl,
        jLookup, reroot, optE, litSE, strE, CompanyProfile.parse, CompanyBasic.parse,
        getP, optP, strP, CompanyProfile.init, CompanyBasic.init, Financials.init,
        Communications.init]
  · intro s
    by_cases h : s ∈ eventTypes <;>
      simp +decide [h, validate, docEventType, CompanyProfile.errs, CompanyBasic.errs,
        OrgSignal.errs, req, dfl, jLookup, reroot, optE, litSE, strE, listE, listEFrom,
        CompanyProfile.parse, CompanyBasic.parse, OrgSignal.parse, getP, optP, strP, listP,
        CompanyProfile.init, CompanyBasic.init, OrgSignal.init, Financials.init,
        Communications.init]
  · intro s
    by_cases h : s ∈ relationTypes <;>
      simp +decide [h, validate, docRelType, CompanyProfile.errs, CompanyBasic.errs,
        GroupCompany.errs, req, dfl, jLookup, reroot, optE, litSE, strE, intE, floatE,
        boolE, listE, listEFrom, CompanyProfile.parse, CompanyBasic.parse,
        GroupCompany.parse, getP, optP, strP, listP, CompanyProfile.init,
        CompanyBasic.init, GroupCompany.init, Financials.init, Communications.init]
  · intro s
    by_cases h : s ∈ platforms <;>
      simp +decide [h, validate, docPlatform, CompanyProfile.errs, CompanyBasic.errs,
        Communications.errs, SocialAccount.errs, req, dfl, jLookup, reroot, optE, litSE,
        strE, intE, boolE, listE, listEFrom, CompanyProfile.parse, CompanyBasic.parse,
        Communications.parse, SocialAccount.parse, getP, optP, strP, listP,
        CompanyProfile.init, CompanyBasic.init, SocialAccount.init, Financials.init,
        Communications.init]

/-- Witness for C1: `headquarters_pref` accepts "東京都" and rejects "Tokyo";
`platform` rejects "Twitter". -/
theorem enum_fields_closed_witness :
    validate (docPref "東京都") =
      .ok { CompanyProfile.init "A" with
            basic := { CompanyBasic.init "A" with headquarters_pref := some "東京都" } } ∧
    validate (docPref "Tokyo") =
      .error [⟨["basic", "headquarters_pref"], .enum, .str "Tokyo"⟩] ∧
    validate (docPlatform "Twitter") =
      .error [⟨["communications", "social_accounts", "0", "platform"], .enum,
              .str "Twitter"⟩] := by
  refine ⟨?_, ?_, ?_⟩
  · have h := enum_fields_closed.1 "東京都"
    rwa [if_pos (by decide)] at h
  · have h := enum_fields_closed.1 "Tokyo"
    rwa [if_neg (by decide)] at h
  · have h := enum_fields_closed.2.2.2.2.2.1 "Twitter"
    rwa [if_neg (by decide)] at h

/-! ### Claim C6 -/

/-- Claim C6: every bounded numeric field uses inclusive bounds: both
endpoints are accepted, any value outside is rejected with a range error on
the field's path (no clamping). Shown for ticker_code 1000–9999, founded_year
1600–2100, fiscal_year 1900–2100, fiscal_year_start_month 1–12, equity_ratio,
confidence and ownership_ratio 0–1, roe and roa −1–1, and the yen amounts
(capital and every yen float of a financial record) ≥ 0; in particular
roe = 3/2 fails with a range error on the record's roe field. -/
theorem numeric_bounds_inclusive :
    (∀ n : ℤ, validate (docTicker n) =
      if 1000 ≤ n ∧ n ≤ 9999 then
        .ok { CompanyProfile.init "A" with
              basic := { CompanyBasic.init "A" with ticker_code := some n } }
      else .error [⟨["basic", "ticker_code"], .range, .num (n : ℚ)⟩]) ∧
    (∀ n : ℤ, validate (docFoundedYear n) =
      if 1600 ≤ n ∧ n ≤ 2100 then
        .ok { CompanyProfile.init "A" with
              basic := { CompanyBasic.init "A" with founded_year := some n } }
      else .error [⟨["basic", "founded_year"], .range, .num (n : ℚ)⟩]) ∧
    (∀ n : ℤ, validate (docStartMonth n) =
      if 1 ≤ n ∧ n ≤ 12 then
        .ok { CompanyProfile.init "A" with
              basic := { CompanyBasic.init "A" with fiscal_year_start_month := some n } }
      else .error [⟨["basic", "fiscal_year_start_month"], .range, .num (n : ℚ)⟩]) ∧
    (∀ n : ℤ, validate (finDocFY n) =
      if 1900 ≤ n ∧ n ≤ 2100 then
        .ok (profileRec (FinancialRecord.init (FiscalPeriod.annual n)))
      else .error [⟨["financials", "records", "0", "period", "fiscal_year"], .range,
                   .num (n : ℚ)⟩]) ∧
    (∀ q : ℚ, validate (docConfidence q) =
      if 0 ≤ q ∧ q ≤ 1 then
        .ok { CompanyProfile.init "A" with confidence := some q }
      else .error [⟨["confidence"], .range, .num q⟩]) ∧
    (∀ q : ℚ, validate (docOwnership q) =
      if 0 ≤ q ∧ q ≤ 1 then
        .ok { CompanyProfile.init "A" with
              group_companies := [{ GroupCompany.init "G" with ownership_ratio := some q }] }
      else .error [⟨["group_companies", "0", "ownership_ratio"], .range, .num q⟩]) ∧
    (∀ q : ℚ, validate (finDoc [("equity_ratio", .num q)]) =
      if 0 ≤ q ∧ q ≤ 1 then
        .ok (profileRec { FinancialRecord.init (FiscalPeriod.annual 2024) with
                          equity_ratio := some q })
      else .error [⟨["financials", "records", "0", "equity_ratio"], .range, .num q⟩]) ∧
    (∀ q : ℚ, validate (finDoc [("roe", .num q)]) =
      if -1 ≤ q ∧ q ≤ 1 then
        .ok (profileRec { FinancialRecord.init (FiscalPeriod.annual 2024) with
                          roe := some q })
      else .error [⟨["financials", "records", "0", "roe"], .range, .num q⟩]) ∧
    (∀ q : ℚ, validate (finDoc [("roa", .num q)]) =
      if -1 ≤ q ∧ q ≤ 1 then
        .ok (profileRec { FinancialRecord.init (FiscalPeriod.annual 2024) with
                          roa := some q })
      else .error [⟨["financials", "records", "0", "roa"], .range, .num q⟩]) ∧
    (∀ n : ℤ, validate (docCapital n) =
      if 0 ≤ n then
        .ok { CompanyProfile.init "A" with
              basic := { CompanyBasic.init "A" with capital_yen := some n } }
      else .error [⟨["basic", "capital_yen"], .range, .num (n : ℚ)⟩]) ∧
    (∀ q : ℚ, validate (docYen q) =
      if 0 ≤ q then
        .ok (profileRec { FinancialRecord.init (FiscalPeriod.annual 2024) with
              revenue_yen := some q, op_income_yen := some q,
              ordinary_income_yen := some q, ebitda_yen := some q,
              net_income_yen := some q, eps_yen := some q,
              total_assets_yen := some q, net_assets_yen := some q,
              interest_bearing_debt_yen := some q,
              segment_revenue_yen := [⟨"S", q⟩] })
      else .error
        [⟨["financials", "records", "0", "revenue_yen"], .range, .num q⟩,
         ⟨["financials", "records", "0", "op_income_yen"], .range, .num q⟩,
         ⟨["financials", "records", "0", "ordinary_income_yen"], .range, .num q⟩,
         ⟨["financials", "records", "0", "ebitda_yen"], .range, .num q⟩,
         ⟨["financials", "records", "0", "net_income_yen"], .range, .num q⟩,
         ⟨["financials", "records", "0", "eps_yen"], .range, .num q⟩,
         ⟨["financials", "records", "0", "total_assets_yen"], .range, .num q⟩,
         ⟨["financials", "records", "0", "net_assets_yen"], .range, .num q⟩,
         ⟨["financials", "records", "0", "interest_bearing_debt_yen"], .range, .num q⟩,
         ⟨["financials", "records", "0", "segment_revenue_yen", "0", "amount_yen"],
          .range, .num q⟩]) := by
  refine ⟨?_, ?_, ?_, ?_, ?_, ?_, ?_, ?_, ?_, ?_, ?_⟩
  · intro n
    by_cases h : 1000 ≤ n ∧ n ≤ 9999
    · simp +decide [h, h.1, h.2, validate, docTicker, CompanyProfile.errs, CompanyBasic.errs,
        req, dfl, jLookup, reroot, optE, litSE, strE, intE, intP, inBoundsI,
        CompanyProfile.parse, CompanyBasic.parse, getP, optP, strP, CompanyProfile.init,
        CompanyBasic.init, Financials.init, Communications.init]
    · have hb : inBoundsI (some 1000) (some 9999) n = false := by simp [inBoundsI]; omega
      simp +decide [h, hb, validate, docTicker, CompanyProfile.errs, CompanyBasic.errs,
        req, dfl, jLookup, reroot, optE, litSE, strE, intE, intP, CompanyProfile.parse,
        CompanyBasic.parse, getP, optP, strP, CompanyProfile.init, CompanyBasic.init,
        Financials.init, Communications.init]
  · intro n
    by_cases h : 1600 ≤ n ∧ n ≤ 2100
    · simp +decide [h, h.1, h.2, validate, docFoundedYear, CompanyProfile.errs,
        CompanyBasic.errs, req, dfl, jLookup, reroot, optE, litSE, strE, intE, intP,
        inBoundsI, CompanyProfile.parse, CompanyBasic.parse, getP, optP, strP,
        CompanyProfile.init, CompanyBasic.init, Financials.init, Communications.init]
    · have hb : inBoundsI (some 1600) (some 2100) n = false := by simp [inBoundsI]; omega
      simp +decide [h, hb, validate, docFoundedYear, CompanyProfile.errs, CompanyBasic.errs,
        req, dfl, jLookup, reroot, optE, litSE, strE, intE, intP, CompanyProfile.parse,
        CompanyBasic.parse, getP, optP, strP, CompanyProfile.init, CompanyBasic.init,
        Financials.init, Communications.init]
  · intro n
    by_cases h : 1 ≤ n ∧ n ≤ 12
    · simp +decide [h, h.1, h.2, validate, docStartMonth, CompanyProfile.errs,
        CompanyBasic.errs, req, dfl, jLookup, reroot, optE, litSE, strE, intE, intP,
        inBoundsI, CompanyProfile.parse, CompanyBasic.parse, getP, optP, strP,
        CompanyProfile.init, CompanyBasic.init, Financials.init, Communications.init]
    · have hb : inBoundsI (some 1) (some 12) n = false := by simp [inBoundsI]; omega
      simp +decide [h, hb, validate, docStartMonth, CompanyProfile.errs, CompanyBasic.errs,
        req, dfl, jLookup, reroot, optE, litSE, strE, intE, intP, CompanyProfile.parse,
        CompanyBasic.parse, getP, optP, strP, CompanyProfile.init, CompanyBasic.init,
        Financials.init, Communications.init]
  · intro n
    by_cases h : 1900 ≤ n ∧ n ≤ 2100
    · simp +decide [h, h.1, h.2, validate, finDocFY, profileRec, CompanyProfile.errs,
        CompanyBasic.errs, Financials.errs, FinancialRecord.errs, FiscalPeriod.errs,
        req, dfl, jLookup, reroot, optE, litSE, litIE, strE, intE, intP, floatE, boolE,
        listE, listEFrom, inBoundsI, CompanyProfile.parse, CompanyBasic.parse,
        Financials.parse, FinancialRecord.parse, FiscalPeriod.parse, getP, optP, strP,
        listP, CompanyProfile.init, CompanyBasic.init, Financials.init,
        Communications.init, FinancialRecord.init, FiscalPeriod.annual]
    · have hb : inBoundsI (some 1900) (some 2100) n = false := by simp [inBoundsI]; omega
      simp +decide [h, hb, validate, finDocFY, CompanyProfile.errs, CompanyBasic.errs,
        Financials.errs, FinancialRecord.errs, FiscalPeriod.errs, req, dfl, jLookup,
        reroot, optE, litSE, litIE, strE, intE, intP, floatE, boolE, listE, listEFrom,
        CompanyProfile.parse, CompanyBasic.parse, getP, optP, strP, listP,
        CompanyProfile.init, CompanyBasic.init, Financials.init, Communications.init]
  · intro q
    by_cases h : 0 ≤ q ∧ q ≤ 1
    · simp +decide [h, h.1, h.2, validate, docConfidence, CompanyProfile.errs,
        CompanyBasic.errs, req, dfl, jLookup, reroot, optE, litSE, strE, floatE, floatP,
        inBoundsQ, CompanyProfile.parse, CompanyBasic.parse, getP, optP, strP,
        CompanyProfile.init, CompanyBasic.init, Financials.init, Communications.init]
    · have hb : inBoundsQ (some 0) (some 1) q = false := by
        rcases not_and_or.mp h with h1 | h1 <;> simp [inBoundsQ, h1]
      simp +decide [h, hb, validate, docConfidence, CompanyProfile.errs, CompanyBasic.errs,
        req, dfl, jLookup, reroot, optE, litSE, strE, floatE, floatP,
        CompanyProfile.parse, CompanyBasic.parse, getP, optP, strP, CompanyProfile.init,
        CompanyBasic.init, Financials.init, Communications.init]
  · intro q
    by_cases h : 0 ≤ q ∧ q ≤ 1
    · simp +decide [h, h.1, h.2, validate, docOwnership, CompanyProfile.errs,
        CompanyBasic.errs, GroupCompany.errs, req, dfl, jLookup, reroot, optE, litSE,
        strE, intE, floatE, floatP, boolE, listE, listEFrom, inBoundsQ,
        CompanyProfile.parse, CompanyBasic.parse, GroupCompany.parse, getP, optP, strP,
        listP, CompanyProfile.init, CompanyBasic.init, GroupCompany.init, Financials.init,
        Communications.init]
    · have hb : inBoundsQ (some 0) (some 1) q = false := by
        rcases not_and_or.mp h with h1 | h1 <;> simp [inBoundsQ, h1]
      simp +decide [h, hb, validate, docOwnership, CompanyProfile.errs, CompanyBasic.errs,
        GroupCompany.errs, req, dfl, jLookup, reroot, optE, litSE, strE, intE, floatE,
        floatP, boolE, listE, listEFrom, CompanyProfile.parse, CompanyBasic.parse,
        GroupCompany.parse, getP, optP, strP, listP, CompanyProfile.init,
        CompanyBasic.init, GroupCompany.init, Financials.init, Communications.init]
  · intro q
    by_cases h : 0 ≤ q ∧ q ≤ 1
    · simp +decide [h, h.1, h.2, validate, finDoc, periodDoc, profileRec,
        CompanyProfile.errs, CompanyBasic.errs, Financials.errs, FinancialRecord.errs,
        FiscalPeriod.errs, req, dfl, jLookup, reroot, optE, litSE, litIE, strE, intE,
        intP, floatE, floatP, boolE, listE, listEFrom, inBoundsI, inBoundsQ,
        CompanyProfile.parse, CompanyBasic.parse, Financials.parse, FinancialRecord.parse,
        FiscalPeriod.parse, getP, optP, strP, listP, CompanyProfile.init,
        CompanyBasic.init, Financials.init, Communications.init, FinancialRecord.init,
        FiscalPeriod.annual]
    · have hb : inBoundsQ (some 0) (some 1) q = false := by
        rcases not_and_or.mp h with h1 | h1 <;> simp [inBoundsQ, h1]
      simp +decide [h, hb, validate, finDoc, periodDoc, CompanyProfile.errs,
        CompanyBasic.errs, Financials.errs, FinancialRecord.errs, FiscalPeriod.errs,
        req, dfl, jLookup, reroot, optE, litSE, litIE, strE, intE, intP, floatE, floatP,
        boolE, listE, listEFrom, inBoundsI, CompanyProfile.parse, CompanyBasic.parse,
        getP, optP, strP, listP, CompanyProfile.init, CompanyBasic.init, Financials.init,
        Communications.init]
  · intro q
    by_cases h : -1 ≤ q ∧ q ≤ 1
    · simp +decide [h, h.1, h.2, validate, finDoc, periodDoc, profileRec,
        CompanyProfile.errs, CompanyBasic.errs, Financials.errs, FinancialRecord.errs,
        FiscalPeriod.errs, req, dfl, jLookup, reroot, optE, litSE, litIE, strE, intE,
        intP, floatE, floatP, boolE, listE, listEFrom, inBoundsI, inBoundsQ,
        CompanyProfile.parse, CompanyBasic.parse, Financials.parse, FinancialRecord.parse,
        FiscalPeriod.parse, getP, optP, strP, listP, CompanyProfile.init,
        CompanyBasic.init, Financials.init, Communications.init, FinancialRecord.init,
        FiscalPeriod.annual]
    · have hb : inBoundsQ (some (-1)) (some 1) q = false := by
        rcases not_and_or.mp h with h1 | h1 <;> simp [inBoundsQ, h1]
      simp +decide [h, hb, validate, finDoc, periodDoc, CompanyProfile.errs,
        CompanyBasic.errs, Financials.errs, FinancialRecord.errs, FiscalPeriod.errs,
        req, dfl, jLookup, reroot, optE, litSE, litIE, strE, intE, intP, floatE, floatP,
        boolE, listE, listEFrom, inBoundsI, CompanyProfile.parse, CompanyBasic.parse,
        getP, optP, strP, listP, CompanyProfile.init, CompanyBasic.init, Financials.init,
        Communications.init]
  · intro q
    by_cases h : -1 ≤ q ∧ q ≤ 1
    · simp +decide [h, h.1, h.2, validate, finDoc, periodDoc, profileRec,
        CompanyProfile.errs, CompanyBasic.errs, Financials.errs, FinancialRecord.errs,
        FiscalPeriod.errs, req, dfl, jLookup, reroot, optE, litSE, litIE, strE, intE,
        intP, floatE, floatP, boolE, listE, listEFrom, inBoundsI, inBoundsQ,
        CompanyProfile.parse, CompanyBasic.parse, Financials.parse, FinancialRecord.parse,
        FiscalPeriod.parse, getP, optP, strP, listP, CompanyProfile.init,
        CompanyBasic.init, Financials.init, Communications.init, FinancialRecord.init,
        FiscalPeriod.annual]
    · have hb : inBoundsQ (some (-1)) (some 1) q = false := by
        rcases not_and_or.mp h with h1 | h1 <;> simp [inBoundsQ, h1]
      simp +decide [h, hb, validate, finDoc, periodDoc, CompanyProfile.errs,
        CompanyBasic.errs, Financials.errs, FinancialRecord.errs, FiscalPeriod.errs,
        req, dfl, jLookup, reroot, optE, litSE, litIE, strE, intE, intP, floatE, floatP,
        boolE, listE, listEFrom, inBoundsI, CompanyProfile.parse, CompanyBasic.parse,
        getP, optP, strP, listP, CompanyProfile.init, CompanyBasic.init, Financials.init,
        Communications.init]
  · intro n
    by_cases h : 0 ≤ n
    · simp +decide [h, validate, docCapital, CompanyProfile.errs, CompanyBasic.errs,
        req, dfl, jLookup, reroot, optE, litSE, strE, intE, intP, inBoundsI,
        CompanyProfile.parse, CompanyBasic.parse, getP, optP, strP, CompanyProfile.init,
        CompanyBasic.init, Financials.init, Communications.init]
    · have hb : inBoundsI (some 0) none n = false := by simp [inBoundsI]; omega
      simp +decide [h, hb, validate, docCapital, CompanyProfile.errs, CompanyBasic.errs,
        req, dfl, jLookup, reroot, optE, litSE, strE, intE, intP, CompanyProfile.parse,
        CompanyBasic.parse, getP, optP, strP, CompanyProfile.init, CompanyBasic.init,
        Financials.init, Communications.init]
  · intro q
    by_cases h : 0 ≤ q
    · simp +decide [h, validate, docYen, finDoc, periodDoc, profileRec,
        CompanyProfile.errs, CompanyBasic.errs, Financials.errs, FinancialRecord.errs,
        FiscalPeriod.errs, SegmentAmount.errs, req, dfl, jLookup, reroot, optE, litSE,
        litIE, strE, intE, intP, floatE, floatP, boolE, listE, listEFrom, inBoundsI,
        inBoundsQ, CompanyProfile.parse, CompanyBasic.parse, Financials.parse,
        FinancialRecord.parse, FiscalPeriod.parse, SegmentAmount.parse, getP, optP, strP,
        listP, CompanyProfile.init, CompanyBasic.init, Financials.init,
        Communications.init, FinancialRecord.init, FiscalPeriod.annual]
    · have hb : inBoundsQ (some 0) none q = false := by simp [inBoundsQ, h]
      simp +decide [h, hb, validate, docYen, finDoc, periodDoc, CompanyProfile.errs,
        CompanyBasic.errs, Financials.errs, FinancialRecord.errs, FiscalPeriod.errs,
        SegmentAmount.errs, req, dfl, jLookup, reroot, optE, litSE, litIE, strE, intE,
        intP, floatE, floatP, boolE, listE, listEFrom, inBoundsI, CompanyProfile.parse,
        CompanyBasic.parse, getP, optP, strP, listP, CompanyProfile.init,
        CompanyBasic.init, Financials.init, Communications.init]

/-- Witness for C6: ticker endpoints accepted; roe = 3/2 rejected with a range
error on the record's roe path; month 13 rejected. -/
theorem numeric_bounds_inclusive_witness :
    validate (docTicker 1000) =
      .ok { CompanyProfile.init "A" with
            basic := { CompanyBasic.init "A" with ticker_code := some 1000 } } ∧
    validate (docTicker 9999) =
      .ok { CompanyProfile.init "A" with
            basic := { CompanyBasic.init "A" with ticker_code := some 9999 } } ∧
    validate (finDoc [("roe", .num (3 / 2))]) =
      .error [⟨["financials", "records", "0", "roe"], .range, .num (3 / 2)⟩] ∧
    validate (docStartMonth 13) =
      .error [⟨["basic", "fiscal_year_start_month"], .range, .num ((13 : ℤ) : ℚ)⟩] := by
  refine ⟨?_, ?_, ?_, ?_⟩
  · have h := numeric_bounds_inclusive.1 1000
    rwa [if_pos (by decide)] at h
  · have h := numeric_bounds_inclusive.1 9999
    rwa [if_pos (by decide)] at h
  · have h := numeric_bounds_inclusive.2.2.2.2.2.2.2.1 (3 / 2)
    rwa [if_neg (by norm_num)] at h
  · have h := numeric_bounds_inclusive.2.2.1 13
    rwa [if_neg (by decide)] at h

/-! ### Claim C5 -/

/-- Claim C5 counterexample: `FiscalPeriod{period_type="annual", quarter=2}`
and `FiscalPeriod{period_type="quarter", quarter=null}` both pass validation
with no error and no flag of any kind, also when embedded in a full profile
document; the claim that neither combination passes without being surfaced is
false. -/
theorem fiscal_period_counterexample :
    FiscalPeriod.validate (periodDoc "annual" 2024 (.num 2)) =
      .ok { FiscalPeriod.annual 2024 with quarter := some 2 } ∧
    FiscalPeriod.validate (periodDoc "quarter" 2024 .null) =
      .ok { FiscalPeriod.annual 2024 with period_type := "quarter" } ∧
    validate (.obj [("basic", .obj [("company_name", .str "X")]),
        ("financials", .obj [("records", .arr
          [.obj [("period", periodDoc "annual" 2024 (.num 2))]])])]) =
      .ok { CompanyProfile.init "X" with
            financials := { Financials.init with
              records := [FinancialRecord.init
                { FiscalPeriod.annual 2024 with quarter := some 2 }] } } :=
  ⟨rfl, rfl, rfl⟩

/-- Claim C5 amended: the schema carries no cross-field constraint between
`period_type` and `quarter`: for any in-range fiscal year and any declared
quarter number, `period_type="annual"` with a non-null quarter validates
successfully, and `period_type="quarter"` with `quarter=null` validates
successfully; neither combination is surfaced in any way (the field
descriptions document the intent, but no validator enforces it). -/
theorem fiscal_period_no_cross_check (y n : ℤ)
    (hy1 : 1900 ≤ y) (hy2 : y ≤ 2100) (hn : n ∈ ([1, 2, 3, 4] : List ℤ)) :
    FiscalPeriod.validate (periodDoc "annual" (y : ℚ) (.num (n : ℚ))) =
      .ok { FiscalPeriod.annual y with quarter := some n } ∧
    FiscalPeriod.validate (periodDoc "quarter" (y : ℚ) .null) =
      .ok { FiscalPeriod.annual y with period_type := "quarter" } := by
  constructor <;>
    simp +decide [FiscalPeriod.validate, periodDoc, FiscalPeriod.errs, FiscalPeriod.parse,
      req, dfl, jLookup, reroot, optE, litSE, litIE, strE, intE, intP, strP, optP, getP,
      inBoundsI, hy1, hy2, hn, FiscalPeriod.annual]

/-- Witness for C5's amended theorem at fiscal year 2024, quarter 2. -/
theorem fiscal_period_no_cross_check_witness :
    FiscalPeriod.validate (periodDoc "annual" ((2024 : ℤ) : ℚ) (.num ((2 : ℤ) : ℚ))) =
      .ok { FiscalPeriod.annual 2024 with quarter := some 2 } :=
  (fiscal_period_no_cross_check 2024 2 (by decide) (by decide) (by decide)).1

/-! ### Claim C7 -/

/-- Claim C7 counterexample: a document with an extra undeclared top-level key
is accepted as a valid profile (the key is silently dropped), so validation
does not accept only documents matching `CompanyProfile` exactly. -/
theorem extra_key_counterexample :
    validate (.obj [("basic", .obj [("company_name", .str "X")]),
                    ("unexpected_field", .num 1)]) = .ok (CompanyProfile.init "X") := rfl

/-- Claim C7 amended: extra top-level keys are ignored, not rejected:
appending a binding for any key that is not one of the nine declared root
fields leaves the validation outcome unchanged, so a valid document stays
valid (with the extra key dropped) and an invalid one reports the same
errors. -/
theorem extra_keys_ignored (fs : List (String × JValue)) (k : String) (x : JValue)
    (hk : k ∉ rootFieldNames) :
    validate (.obj (fs ++ [(k, x)])) = validate (.obj fs) := by
  simp only [rootFieldNames, List.mem_cons, List.not_mem_nil, or_false, not_or] at hk
  obtain ⟨h1, h2, h3, h4, h5, h6, h7, h8, h9⟩ := hk
  have he : CompanyProfile.errs (.obj (fs ++ [(k, x)])) = CompanyProfile.errs (.obj fs) := by
    simp only [CompanyProfile.errs, req, dfl,
      jLookup_append_single x (Ne.symm h1), jLookup_append_single x (Ne.symm h2),
      jLookup_append_single x (Ne.symm h3), jLookup_append_single x (Ne.symm h4),
      jLookup_append_single x (Ne.symm h5), jLookup_append_single x (Ne.symm h6),
      jLookup_append_single x (Ne.symm h7), jLookup_append_single x (Ne.symm h8),
      jLookup_append_single x (Ne.symm h9)]
  have hp : CompanyProfile.parse (.obj (fs ++ [(k, x)])) = CompanyProfile.parse (.obj fs) := by
    simp only [CompanyProfile.parse, getP,
      jLookup_append_single x (Ne.symm h1), jLookup_append_single x (Ne.symm h2),
      jLookup_append_single x (Ne.symm h3), jLookup_append_single x (Ne.symm h4),
      jLookup_append_single x (Ne.symm h5), jLookup_append_single x (Ne.symm h6),
      jLookup_append_single x (Ne.symm h7), jLookup_append_single x (Ne.symm h8),
      jLookup_append_single x (Ne.symm h9)]
  unfold validate
  rw [he, hp]

/-- Witness for C7's amended theorem: appending `("unexpected_field", 1)` to
the minimal document does not change the outcome. -/
theorem extra_keys_ignored_witness :
    validate (.obj ([("basic", .obj [("company_name", .str "X")])] ++
                    [("unexpected_field", .num 1)])) =
      validate (.obj [("basic", .obj [("company_name", .str "X")])]) :=
  extra_keys_ignored [("basic", .obj [("company_name", .str "X")])]
    "unexpected_field" (.num 1) (by decide)

/-! ### Claim C2 -/

/-- Claim C2 counterexample: `source_url = "ir.example.com/report.pdf"`
(missing scheme) is accepted both at the root and on an executive; validation
raises no FormatError — no error at all — contradicting the claimed
rejection. -/
theorem url_scheme_counterexample :
    validate (docSourceUrl (.str "ir.example.com/report.pdf")) =
      .ok (profileSourceUrl "ir.example.com/report.pdf") := rfl

/-- Claim C2 amended: URL-annotated string fields carry no pattern check in
the code — the `http(s)` requirement lives only in the natural-language field
descriptions handed to the agent. Validation accepts any string for
`source_url` verbatim (root and executive shown), and no document ever
produces an error of kind `format`. -/
theorem url_fields_accept_any_string :
    (∀ s : String, validate (docSourceUrl (.str s)) = .ok (profileSourceUrl s)) ∧
    (∀ v : JValue, ∀ e ∈ CompanyProfile.errs v, e.kind ≠ ErrKind.format) := by
  constructor
  · intro s
    simp +decide [validate, docSourceUrl, profileSourceUrl, CompanyProfile.errs,
      CompanyBasic.errs, Executive.errs, req, dfl, jLookup, reroot, optE, litSE, strE,
      intE, floatE, boolE, listE, listEFrom, CompanyProfile.parse, CompanyBasic.parse,
      Executive.parse, getP, optP, listP, strP, CompanyProfile.init, CompanyBasic.init,
      Executive.init, Financials.init, Communications.init]
  · exact noFormat_CompanyProfile

/-- Witness for C2's amended theorem: a schemeless string accepted, and a
concrete non-`format` error. -/
theorem url_fields_accept_any_string_witness :
    validate (docSourceUrl (.str "ftp://example.com")) =
      .ok (profileSourceUrl "ftp://example.com") ∧
    VError.kind ⟨[], .structural, .null⟩ ≠ ErrKind.format :=
  ⟨url_fields_accept_any_string.1 "ftp://example.com",
   url_fields_accept_any_string.2 .null ⟨[], .structural, .null⟩
     (by simp [CompanyProfile.errs])⟩

/-! ### Round-trip infrastructure: serializing a parsed valid document
re-validates cleanly and re-parses to the same value -/

theorem reroot_eq_nil {s : String} {es : List VError} :
    reroot s es = [] ↔ es = [] := by
  simp [reroot]

theorem listEFrom_nil_iff {inner : JValue → List VError} :
    ∀ (i : ℕ) (xs : List JValue),
      listEFrom inner i xs = [] ↔ ∀ x ∈ xs, inner x = [] := by
  intro i xs
  induction xs generalizing i with
  | nil => simp [listEFrom]
  | cons x rest ih =>
      simp [listEFrom, reroot, ih]

theorem optE_of_inner {inner : JValue → List VError} {v : JValue}
    (h : inner v = []) : optE inner v = [] := by
  cases v <;> first | rfl | exact h

theorem strE_self : ∀ v, strE v = [] → JValue.str (strP v) = v := by
  intro v h
  cases v <;> first | rfl | simp [strE] at h

theorem boolE_self : ∀ v, boolE v = [] → JValue.bool (boolP v) = v := by
  intro v h
  cases v <;> first | rfl | simp [boolE] at h

theorem num_intCast_self {q : ℚ} (h : q.den = 1) : ((q.num : ℤ) : ℚ) = q := by
  conv_rhs => rw [← Rat.num_div_den q]
  rw [h]
  simp

theorem intE_self (lo hi : Option ℤ) :
    ∀ v, intE lo hi v = [] → JValue.num ((intP v : ℤ) : ℚ) = v := by
  intro v h
  cases v with
  | num q =>
      simp only [intE] at h
      split_ifs at h with h1 h2
      exact congrArg JValue.num (num_intCast_self h1)
  | null => simp [intE] at h
  | bool b => simp [intE] at h
  | str s => simp [intE] at h
  | arr xs => simp [intE] at h
  | obj fs => simp [intE] at h

theorem floatE_self (lo hi : Option ℚ) :
    ∀ v, floatE lo hi v = [] → JValue.num (floatP v) = v := by
  intro v h
  cases v <;> first
    | rfl
    | simp [floatE] at h

theorem litSE_self (allowed : List String) :
    ∀ v, litSE allowed v = [] → JValue.str (strP v) = v := by
  intro v h
  cases v <;> first
    | rfl
    | simp [litSE] at h

theorem litIE_self (allowed : List ℤ) :
    ∀ v, litIE allowed v = [] → JValue.num ((intP v : ℤ) : ℚ) = v := by
  intro v h
  cases v with
  | num q =>
      simp only [litIE] at h
      split_ifs at h with h1
      exact congrArg JValue.num (num_intCast_self h1.1)
  | null => simp [litIE] at h
  | bool b => simp [litIE] at h
  | str s => simp [litIE] at h
  | arr xs => simp [litIE] at h
  | obj fs => simp [litIE] at h

theorem self_to_rt {α : Type} {innerE : JValue → List VError} {innerP : JValue → α}
    {serFn : α → JValue}
    (hself : ∀ v, innerE v = [] → serFn (innerP v) = v) :
    ∀ v, innerE v = [] → innerE (serFn (innerP v)) = [] :=
  fun v h => by rw [hself v h]; exact h

theorem optE_rt {α : Type} {innerE : JValue → List VError} {innerP : JValue → α}
    {serFn : α → JValue}
    (hrt : ∀ w, innerE w = [] → innerE (serFn (innerP w)) = []) :
    ∀ w, optE innerE w = [] → optE innerE (optJ serFn (optP innerP w)) = [] := by
  intro w h
  cases w with
  | null => rfl
  | bool b => exact optE_of_inner (hrt _ h)
  | num q => exact optE_of_inner (hrt _ h)
  | str s => exact optE_of_inner (hrt _ h)
  | arr xs => exact optE_of_inner (hrt _ h)
  | obj fs => exact optE_of_inner (hrt _ h)

theorem listE_rt {α : Type} {innerE : JValue → List VError} {innerP : JValue → α}
    {serFn : α → JValue}
    (hrt : ∀ w, innerE w = [] → innerE (serFn (innerP w)) = []) :
    ∀ w, listE innerE w = [] →
      listE innerE (.arr ((listP innerP w).map serFn)) = [] := by
  intro w h
  cases w with
  | arr xs =>
      have hx := (listEFrom_nil_iff 0 xs).mp h
      show listEFrom innerE 0 ((xs.map innerP).map serFn) = []
      refine (listEFrom_nil_iff 0 _).mpr ?_
      intro y hy
      simp only [List.map_map, List.mem_map] at hy
      obtain ⟨x, hx', rfl⟩ := hy
      exact hrt x (hx x hx')
  | null => simp [listE] at h
  | bool b => simp [listE] at h
  | num q => simp [listE] at h
  | str s => simp [listE] at h
  | obj fs => simp [listE] at h

theorem req_ser {α : Type} {fs : List (String × JValue)} {name : String}
    {innerE : JValue → List VError} {innerP : JValue → α} {serFn : α → JValue} {d : α}
    (hrt : ∀ w, innerE w = [] → innerE (serFn (innerP w)) = [])
    (h : req fs name innerE = []) :
    innerE (serFn (getP fs name innerP d)) = [] := by
  unfold req at h
  unfold getP
  cases hl : jLookup fs name with
  | some fv =>
      rw [hl] at h
      exact hrt fv (reroot_eq_nil.mp h)
  | none => rw [hl] at h; simp at h

theorem dfl_ser {α : Type} {fs : List (String × JValue)} {name : String}
    {innerE : JValue → List VError} {innerP : JValue → α} {serFn : α → JValue} {d : α}
    (hrt : ∀ w, innerE w = [] → innerE (serFn (innerP w)) = [])
    (hd : innerE (serFn d) = [])
    (h : dfl fs name innerE = []) :
    innerE (serFn (getP fs name innerP d)) = [] := by
  unfold dfl at h
  unfold getP
  cases hl : jLookup fs name with
  | some fv =>
      rw [hl] at h
      exact hrt fv (reroot_eq_nil.mp h)
  | none => exact hd

/-- Specialization: required string-literal (enum) field. -/
theorem req_ser_litS {fs : List (String × JValue)} {name : String} {A : List String}
    (h : req fs name (litSE A) = []) :
    litSE A (JValue.str (getP fs name strP "")) = [] :=
  req_ser (self_to_rt (litSE_self A)) h

/-- Specialization: required bounded-int field. -/
theorem req_ser_int {fs : List (String × JValue)} {name : String} {lo hi : Option ℤ}
    (h : req fs name (intE lo hi) = []) :
    intE lo hi (JValue.num ((getP fs name intP 0 : ℤ) : ℚ)) = [] :=
  @req_ser ℤ fs name (intE lo hi) intP (fun n : ℤ => JValue.num (n : ℚ)) 0
    (@self_to_rt ℤ (intE lo hi) intP (fun n : ℤ => JValue.num (n : ℚ))
      (intE_self lo hi)) h

/-- Specialization: required bounded-float field. -/
theorem req_ser_float {fs : List (String × JValue)} {name : String} {lo hi : Option ℚ}
    (h : req fs name (floatE lo hi) = []) :
    floatE lo hi (JValue.num (getP fs name floatP 0)) = [] :=
  req_ser (self_to_rt (floatE_self lo hi)) h

/-- Specialization: optional string-literal (enum) field. -/
theorem dfl_ser_litS {fs : List (String × JValue)} {name : String} {A : List String}
    (h : dfl fs name (optE (litSE A)) = []) :
    optE (litSE A) (optJ JValue.str (getP fs name (optP strP) none)) = [] :=
  dfl_ser (optE_rt (self_to_rt (litSE_self A))) rfl h

/-- Specialization: optional integer-literal (enum) field. -/
theorem dfl_ser_litI {fs : List (String × JValue)} {name : String} {A : List ℤ}
    (h : dfl fs name (optE (litIE A)) = []) :
    optE (litIE A) (optJ (fun n : ℤ => JValue.num (n : ℚ))
      (getP fs name (optP intP) none)) = [] :=
  dfl_ser (optE_rt (self_to_rt (litIE_self A))) rfl h

/-- Specialization: optional bounded-int field. -/
theorem dfl_ser_int {fs : List (String × JValue)} {name : String} {lo hi : Option ℤ}
    (h : dfl fs name (optE (intE lo hi)) = []) :
    optE (intE lo hi) (optJ (fun n : ℤ => JValue.num (n : ℚ))
      (getP fs name (optP intP) none)) = [] :=
  dfl_ser (optE_rt (self_to_rt (intE_self lo hi))) rfl h

/-- Specialization: optional bounded-float field. -/
theorem dfl_ser_float {fs : List (String × JValue)} {name : String} {lo hi : Option ℚ}
    (h : dfl fs name (optE (floatE lo hi)) = []) :
    optE (floatE lo hi) (optJ (fun q : ℚ => JValue.num q)
      (getP fs name (optP floatP) none)) = [] :=
  dfl_ser (optE_rt (self_to_rt (floatE_self lo hi))) rfl h

/-- Specialization: list-of-submodel field with default `[]`. -/
theorem dfl_ser_list {α : Type} (innerE : JValue → List VError) (innerP : JValue → α)
    (serFn : α → JValue) {fs : List (String × JValue)} {name : String}
    (hrt : ∀ w, innerE w = [] → innerE (serFn (innerP w)) = [])
    (h : dfl fs name (listE innerE) = []) :
    listE innerE (.arr ((getP fs name (listP innerP) []).map serFn)) = [] :=
  @dfl_ser (List α) fs name (listE innerE) (listP innerP)
    (fun xs => JValue.arr (xs.map serFn)) [] (listE_rt hrt) rfl h

/-- Required submodel field: explicit-argument form of `req_ser`. -/
theorem req_ser_sub {α : Type} (innerE : JValue → List VError) (innerP : JValue → α)
    (serFn : α → JValue) (d : α) {fs : List (String × JValue)} {name : String}
    (hrt : ∀ w, innerE w = [] → innerE (serFn (innerP w)) = [])
    (h : req fs name innerE = []) :
    innerE (serFn (getP fs name innerP d)) = [] :=
  req_ser hrt h

/-- Submodel field with a default-factory instance: explicit-argument form. -/
theorem dfl_ser_sub {α : Type} (innerE : JValue → List VError) (innerP : JValue → α)
    (serFn : α → JValue) (d : α) {fs : List (String × JValue)} {name : String}
    (hrt : ∀ w, innerE w = [] → innerE (serFn (innerP w)) = [])
    (hd : innerE (serFn d) = [])
    (h : dfl fs name innerE = []) :
    innerE (serFn (getP fs name innerP d)) = [] :=
  dfl_ser hrt hd h

/-- `strE` accepts every serialized string. -/
theorem strE_str (s : String) : strE (JValue.str s) = [] := rfl

/-- `boolE` accepts every serialized bool. -/
theorem boolE_bool (b : Bool) : boolE (JValue.bool b) = [] := rfl

/-- Optional plain-string fields re-validate cleanly after serialization. -/
theorem optE_optJ_str (o : Option String) :
    optE strE (optJ JValue.str o) = [] := by
  cases o <;> rfl

/-- Optional bool fields re-validate cleanly after serialization. -/
theorem optE_optJ_bool (o : Option Bool) :
    optE boolE (optJ JValue.bool o) = [] := by
  cases o <;> rfl

/-- Lists of plain strings re-validate cleanly after serialization. -/
theorem listE_map_str (xs : List String) :
    listE strE (.arr (xs.map JValue.str)) = [] := by
  show listEFrom strE 0 (xs.map JValue.str) = []
  refine (listEFrom_nil_iff 0 _).mpr ?_
  intro y hy
  simp only [List.mem_map] at hy
  obtain ⟨x, -, rfl⟩ := hy
  rfl

/-! ### Parse-of-serialization identities -/

theorem optP_optJ_str (o : Option String) : optP strP (optJ JValue.str o) = o := by
  cases o <;> rfl

theorem optP_optJ_bool (o : Option Bool) : optP boolP (optJ JValue.bool o) = o := by
  cases o <;> rfl

theorem optP_optJ_int (o : Option ℤ) :
    optP intP (optJ (fun n : ℤ => JValue.num (n : ℚ)) o) = o := by
  cases o <;> rfl

theorem optP_optJ_float (o : Option ℚ) :
    optP floatP (optJ (fun q : ℚ => JValue.num q) o) = o := by
  cases o <;> rfl

theorem listP_map {α : Type} (innerP : JValue → α) (serFn : α → JValue)
    (hin : ∀ a, innerP (serFn a) = a) :
    ∀ xs : List α, listP innerP (.arr (xs.map serFn)) = xs := by
  intro xs
  induction xs with
  | nil => rfl
  | cons a rest ih =>
      show innerP (serFn a) :: listP innerP (.arr (rest.map serFn)) = a :: rest
      rw [hin a, ih]

theorem listP_map_str (xs : List String) :
    listP strP (.arr (xs.map JValue.str)) = xs :=
  listP_map strP JValue.str (fun _ => rfl) xs

theorem reroot_nil (s : String) : reroot s [] = [] := rfl

/-! ### Per-model round-trip lemmas -/

theorem parse_toJ_SegmentRatio (x : SegmentRatio) :
    SegmentRatio.parse (SegmentRatio.toJ x) = x := by
  cases x with
  | mk nm r =>
      simp +decide [SegmentRatio.toJ, SegmentRatio.parse, getP, jLookup, strP, floatP]

theorem errs_toJ_SegmentRatio {v : JValue} (h : SegmentRatio.errs v = []) :
    SegmentRatio.errs (SegmentRatio.toJ (SegmentRatio.parse v)) = [] := by
  cases v with
  | obj fs =>
      simp only [SegmentRatio.errs, List.append_eq_nil, and_assoc] at h
      obtain ⟨h1, h2⟩ := h
      simp +decide [SegmentRatio.errs, SegmentRatio.toJ, SegmentRatio.parse, req, dfl,
        jLookup, reroot_nil, strE_str, req_ser_float h2]
  | null => simp [SegmentRatio.errs] at h
  | bool b => simp [SegmentRatio.errs] at h
  | num q => simp [SegmentRatio.errs] at h
  | str s => simp [SegmentRatio.errs] at h
  | arr xs => simp [SegmentRatio.errs] at h

theorem parse_toJ_SegmentAmount (x : SegmentAmount) :
    SegmentAmount.parse (SegmentAmount.toJ x) = x := by
  cases x with
  | mk nm a =>
      simp +decide [SegmentAmount.toJ, SegmentAmount.parse, getP, jLookup, strP, floatP]

theorem errs_toJ_SegmentAmount {v : JValue} (h : SegmentAmount.errs v = []) :
    SegmentAmount.errs (SegmentAmount.toJ (SegmentAmount.parse v)) = [] := by
  cases v with
  | obj fs =>
      simp only [SegmentAmount.errs, List.append_eq_nil, and_assoc] at h
      obtain ⟨h1, h2⟩ := h
      simp +decide [SegmentAmount.errs, SegmentAmount.toJ, SegmentAmount.parse, req, dfl,
        jLookup, reroot_nil, strE_str, req_ser_float h2]
  | null => simp [SegmentAmount.errs] at h
  | bool b => simp [SegmentAmount.errs] at h
  | num q => simp [SegmentAmount.errs] at h
  | str s => simp [SegmentAmount.errs] at h
  | arr xs => simp [SegmentAmount.errs] at h

theorem parse_toJ_FiscalPeriod (x : FiscalPeriod) :
    FiscalPeriod.parse (FiscalPeriod.toJ x) = x := by
  cases x with
  | mk pt fy qt ps pe =>
      simp +decide [FiscalPeriod.toJ, FiscalPeriod.parse, getP, jLookup, strP, intP,
        optP_optJ_str, optP_optJ_int]

theorem errs_toJ_FiscalPeriod {v : JValue} (h : FiscalPeriod.errs v = []) :
    FiscalPeriod.errs (FiscalPeriod.toJ (FiscalPeriod.parse v)) = [] := by
  cases v with
  | obj fs =>
      simp only [FiscalPeriod.errs, List.append_eq_nil, and_assoc] at h
      obtain ⟨h1, h2, h3, h4, h5⟩ := h
      simp +decide [FiscalPeriod.errs, FiscalPeriod.toJ, FiscalPeriod.parse, req, dfl,
        jLookup, reroot_nil, req_ser_litS h1, req_ser_int h2, dfl_ser_litI h3,
        optE_optJ_str]
  | null => simp [FiscalPeriod.errs] at h
  | bool b => simp [FiscalPeriod.errs] at h
  | num q => simp [FiscalPeriod.errs] at h
  | str s => simp [FiscalPeriod.errs] at h
  | arr xs => simp [FiscalPeriod.errs] at h

theorem parse_toJ_Executive (x : Executive) :
    Executive.parse (Executive.toJ x) = x := by
  cases x with
  | mk nm ttl cs rsp sd ed su =>
      simp +decide [Executive.toJ, Executive.parse, getP, jLookup, strP, optP_optJ_str]

theorem errs_toJ_Executive {v : JValue} (h : Executive.errs v = []) :
    Executive.errs (Executive.toJ (Executive.parse v)) = [] := by
  cases v with
  | obj fs =>
      simp +decide [Executive.errs, Executive.toJ, Executive.parse, req, dfl,
        jLookup, reroot_nil, strE_str, optE_optJ_str]
  | null => simp [Executive.errs] at h
  | bool b => simp [Executive.errs] at h
  | num q => simp [Executive.errs] at h
  | str s => simp [Executive.errs] at h
  | arr xs => simp [Executive.errs] at h

theorem parse_toJ_CompanyBasic (x : CompanyBasic) :
    CompanyBasic.parse (CompanyBasic.toJ x) = x := by
  cases x with
  | mk f1 f2 f3 f4 f5 f6 f7 f8 f9 f10 f11 f12 =>
      simp +decide [CompanyBasic.toJ, CompanyBasic.parse, getP, jLookup, strP, intP,
        optP_optJ_str, optP_optJ_int,
        listP_map Executive.parse Executive.toJ parse_toJ_Executive]

theorem errs_toJ_CompanyBasic {v : JValue} (h : CompanyBasic.errs v = []) :
    CompanyBasic.errs (CompanyBasic.toJ (CompanyBasic.parse v)) = [] := by
  cases v with
  | obj fs =>
      simp only [CompanyBasic.errs, List.append_eq_nil, and_assoc] at h
      obtain ⟨h1, h2, h3, h4, h5, h6, h7, h8, h9, h10, h11, h12⟩ := h
      simp +decide [CompanyBasic.errs, CompanyBasic.toJ, CompanyBasic.parse, req, dfl,
        jLookup, reroot_nil, strE_str, optE_optJ_str, dfl_ser_int h2, dfl_ser_litS h3,
        dfl_ser_litS h5, dfl_ser_int h6, dfl_ser_int h7, dfl_ser_int h8,
        dfl_ser_list Executive.errs Executive.parse Executive.toJ
          (fun w hw => errs_toJ_Executive hw) h9,
        dfl_ser_litS h10, dfl_ser_int h11]
  | null => simp [CompanyBasic.errs] at h
  | bool b => simp [CompanyBasic.errs] at h
  | num q => simp [CompanyBasic.errs] at h
  | str s => simp [CompanyBasic.errs] at h
  | arr xs => simp [CompanyBasic.errs] at h

theorem parse_toJ_FinancialRecord (x : FinancialRecord) :
    FinancialRecord.parse (FinancialRecord.toJ x) = x := by
  cases x with
  | mk f1 f2 f3 f4 f5 f6 f7 f8 f9 f10 f11 f12 f13 f14 f15 f16 f17 f18 f19 f20 =>
      simp +decide [FinancialRecord.toJ, FinancialRecord.parse, getP, jLookup, strP,
        optP_optJ_str, optP_optJ_bool, optP_optJ_float, parse_toJ_FiscalPeriod,
        listP_map SegmentRatio.parse SegmentRatio.toJ parse_toJ_SegmentRatio,
        listP_map SegmentAmount.parse SegmentAmount.toJ parse_toJ_SegmentAmount]

theorem errs_toJ_FinancialRecord {v : JValue} (h : FinancialRecord.errs v = []) :
    FinancialRecord.errs (FinancialRecord.toJ (FinancialRecord.parse v)) = [] := by
  cases v with
  | obj fs =>
      simp only [FinancialRecord.errs, List.append_eq_nil, and_assoc] at h
      obtain ⟨h1, h2, h3, h4, h5, h6, h7, h8, h9, h10, h11, h12, h13, h14, h15, h16,
        h17, h18, h19, h20⟩ := h
      simp +decide [FinancialRecord.errs, FinancialRecord.toJ, FinancialRecord.parse,
        req, dfl, jLookup, reroot_nil, strE_str, optE_optJ_str, optE_optJ_bool,
        req_ser_sub FiscalPeriod.errs FiscalPeriod.parse FiscalPeriod.toJ
          (FiscalPeriod.parse .null) (fun w hw => errs_toJ_FiscalPeriod hw) h1,
        dfl_ser_float h5, dfl_ser_float h6, dfl_ser_float h7, dfl_ser_float h8,
        dfl_ser_float h9, dfl_ser_float h10, dfl_ser_float h11, dfl_ser_float h12,
        dfl_ser_float h13, dfl_ser_float h14, dfl_ser_float h15, dfl_ser_float h16,
        dfl_ser_list SegmentRatio.errs SegmentRatio.parse SegmentRatio.toJ
          (fun w hw => errs_toJ_SegmentRatio hw) h17,
        dfl_ser_list SegmentAmount.errs SegmentAmount.parse SegmentAmount.toJ
          (fun w hw => errs_toJ_SegmentAmount hw) h18]
  | null => simp [FinancialRecord.errs] at h
  | bool b => simp [FinancialRecord.errs] at h
  | num q => simp [FinancialRecord.errs] at h
  | str s => simp [FinancialRecord.errs] at h
  | arr xs => simp [FinancialRecord.errs] at h

theorem parse_toJ_Financials (x : Financials) :
    Financials.parse (Financials.toJ x) = x := by
  cases x with
  | mk f1 f2 f3 =>
      simp +decide [Financials.toJ, Financials.parse, getP, jLookup, strP,
        optP_optJ_str,
        listP_map FinancialRecord.parse FinancialRecord.toJ parse_toJ_FinancialRecord]

theorem errs_toJ_Financials {v : JValue} (h : Financials.errs v = []) :
    Financials.errs (Financials.toJ (Financials.parse v)) = [] := by
  cases v with
  | obj fs =>
      simp only [Financials.errs, List.append_eq_nil, and_assoc] at h
      obtain ⟨h1, h2, h3⟩ := h
      simp +decide [Financials.errs, Financials.toJ, Financials.parse, req, dfl,
        jLookup, reroot_nil, optE_optJ_str,
        dfl_ser_list FinancialRecord.errs FinancialRecord.parse FinancialRecord.toJ
          (fun w hw => errs_toJ_FinancialRecord hw) h1]
  | null => simp [Financials.errs] at h
  | bool b => simp [Financials.errs] at h
  | num q => simp [Financials.errs] at h
  | str s => simp [Financials.errs] at h
  | arr xs => simp [Financials.errs] at h

theorem parse_toJ_OrgSignal (x : OrgSignal) :
    OrgSignal.parse (OrgSignal.toJ x) = x := by
  cases x with
  | mk f1 f2 f3 f4 =>
      simp +decide [OrgSignal.toJ, OrgSignal.parse, getP, jLookup, strP, optP_optJ_str]

theorem errs_toJ_OrgSignal {v : JValue} (h : OrgSignal.errs v = []) :
    OrgSignal.errs (OrgSignal.toJ (OrgSignal.parse v)) = [] := by
  cases v with
  | obj fs =>
      simp only [OrgSignal.errs, List.append_eq_nil, and_assoc] at h
      obtain ⟨h1, h2, h3, h4⟩ := h
      simp +decide [OrgSignal.errs, OrgSignal.toJ, OrgSignal.parse, req, dfl,
        jLookup, reroot_nil, strE_str, optE_optJ_str, dfl_ser_litS h1]
  | null => simp [OrgSignal.errs] at h
  | bool b => simp [OrgSignal.errs] at h
  | num q => simp [OrgSignal.errs] at h
  | str s => simp [OrgSignal.errs] at h
  | arr xs => simp [OrgSignal.errs] at h

theorem parse_toJ_SocialAccount (x : SocialAccount) :
    SocialAccount.parse (SocialAccount.toJ x) = x := by
  cases x with
  | mk f1 f2 f3 f4 f5 f6 f7 =>
      simp +decide [SocialAccount.toJ, SocialAccount.parse, getP, jLookup, strP,
        optP_optJ_str, optP_optJ_bool, optP_optJ_int]

theorem errs_toJ_SocialAccount {v : JValue} (h : SocialAccount.errs v = []) :
    SocialAccount.errs (SocialAccount.toJ (SocialAccount.parse v)) = [] := by
  cases v with
  | obj fs =>
      simp only [SocialAccount.errs, List.append_eq_nil, and_assoc] at h
      obtain ⟨h1, h2, h3, h4, h5, h6, h7⟩ := h
      simp +decide [SocialAccount.errs, SocialAccount.toJ, SocialAccount.parse, req, dfl,
        jLookup, reroot_nil, strE_str, optE_optJ_str, optE_optJ_bool,
        req_ser_litS h1, dfl_ser_int h4]
  | null => simp [SocialAccount.errs] at h
  | bool b => simp [SocialAccount.errs] at h
  | num q => simp [SocialAccount.errs] at h
  | str s => simp [SocialAccount.errs] at h
  | arr xs => simp [SocialAccount.errs] at h

theorem parse_toJ_Communications (x : Communications) :
    Communications.parse (Communications.toJ x) = x := by
  cases x with
  | mk f1 f2 f3 f4 =>
      simp +decide [Communications.toJ, Communications.parse, getP, jLookup, strP,
        optP_optJ_str, listP_map_str,
        listP_map SocialAccount.parse SocialAccount.toJ parse_toJ_SocialAccount]

theorem errs_toJ_Communications {v : JValue} (h : Communications.errs v = []) :
    Communications.errs (Communications.toJ (Communications.parse v)) = [] := by
  cases v with
  | obj fs =>
      simp only [Communications.errs, List.append_eq_nil, and_assoc] at h
      obtain ⟨h1, h2, h3, h4⟩ := h
      simp +decide [Communications.errs, Communications.toJ, Communications.parse,
        req, dfl, jLookup, reroot_nil, optE_optJ_str, listE_map_str,
        dfl_ser_list SocialAccount.errs SocialAccount.parse SocialAccount.toJ
          (fun w hw => errs_toJ_SocialAccount hw) h2]
  | null => simp [Communications.errs] at h
  | bool b => simp [Communications.errs] at h
  | num q => simp [Communications.errs] at h
  | str s => simp [Communications.errs] at h
  | arr xs => simp [Communications.errs] at h

theorem parse_toJ_Competitor (x : Competitor) :
    Competitor.parse (Competitor.toJ x) = x := by
  cases x with
  | mk f1 f2 f3 f4 =>
      simp +decide [Competitor.toJ, Competitor.parse, getP, jLookup, strP,
        optP_optJ_str, listP_map_str]

theorem errs_toJ_Competitor {v : JValue} (h : Competitor.errs v = []) :
    Competitor.errs (Competitor.toJ (Competitor.parse v)) = [] := by
  cases v with
  | obj fs =>
      simp +decide [Competitor.errs, Competitor.toJ, Competitor.parse, req, dfl,
        jLookup, reroot_nil, strE_str, optE_optJ_str, listE_map_str]
  | null => simp [Competitor.errs] at h
  | bool b => simp [Competitor.errs] at h
  | num q => simp [Competitor.errs] at h
  | str s => simp [Competitor.errs] at h
  | arr xs => simp [Competitor.errs] at h

theorem parse_toJ_GroupCompany (x : GroupCompany) :
    GroupCompany.parse (GroupCompany.toJ x) = x := by
  cases x with
  | mk f1 f2 f3 f4 f5 f6 f7 f8 f9 f10 f11 f12 f13 f14 =>
      simp +decide [GroupCompany.toJ, GroupCompany.parse, getP, jLookup, strP,
        optP_optJ_str, optP_optJ_bool, optP_optJ_int, optP_optJ_float]

theorem errs_toJ_GroupCompany {v : JValue} (h : GroupCompany.errs v = []) :
    GroupCompany.errs (GroupCompany.toJ (GroupCompany.parse v)) = [] := by
  cases v with
  | obj fs =>
      simp only [GroupCompany.errs, List.append_eq_nil, and_assoc] at h
      obtain ⟨h1, h2, h3, h4, h5, h6, h7, h8, h9, h10, h11, h12, h13, h14⟩ := h
      simp +decide [GroupCompany.errs, GroupCompany.toJ, GroupCompany.parse, req, dfl,
        jLookup, reroot_nil, strE_str, optE_optJ_str, optE_optJ_bool,
        dfl_ser_litS h2, dfl_ser_float h3, dfl_ser_int h5, dfl_ser_litS h6,
        dfl_ser_litS h8, dfl_ser_int h9, dfl_ser_int h10, dfl_ser_int h11]
  | null => simp [GroupCompany.errs] at h
  | bool b => simp [GroupCompany.errs] at h
  | num q => simp [GroupCompany.errs] at h
  | str s => simp [GroupCompany.errs] at h
  | arr xs => simp [GroupCompany.errs] at h

theorem parse_toJ_CompanyProfile (x : CompanyProfile) :
    CompanyProfile.parse (CompanyProfile.toJ x) = x := by
  cases x with
  | mk f1 f2 f3 f4 f5 f6 f7 f8 f9 =>
      simp +decide [CompanyProfile.toJ, CompanyProfile.parse, getP, jLookup, strP,
        optP_optJ_str, optP_optJ_float, parse_toJ_CompanyBasic, parse_toJ_Financials,
        parse_toJ_Communications,
        listP_map OrgSignal.parse OrgSignal.toJ parse_toJ_OrgSignal,
        listP_map Competitor.parse Competitor.toJ parse_toJ_Competitor,
        listP_map GroupCompany.parse GroupCompany.toJ parse_toJ_GroupCompany]

theorem errs_toJ_CompanyProfile {v : JValue} (h : CompanyProfile.errs v = []) :
    CompanyProfile.errs (CompanyProfile.toJ (CompanyProfile.parse v)) = [] := by
  cases v with
  | obj fs =>
      simp only [CompanyProfile.errs, List.append_eq_nil, and_assoc] at h
      obtain ⟨h1, h2, h3, h4, h5, h6, h7, h8, h9⟩ := h
      simp +decide [CompanyProfile.errs, CompanyProfile.toJ, CompanyProfile.parse,
        req, dfl, jLookup, reroot_nil, optE_optJ_str,
        req_ser_sub CompanyBasic.errs CompanyBasic.parse CompanyBasic.toJ
          (CompanyBasic.parse .null) (fun w hw => errs_toJ_CompanyBasic hw) h1,
        dfl_ser_sub Financials.errs Financials.parse Financials.toJ Financials.init
          (fun w hw => errs_toJ_Financials hw) rfl h2,
        dfl_ser_list OrgSignal.errs OrgSignal.parse OrgSignal.toJ
          (fun w hw => errs_toJ_OrgSignal hw) h3,
        dfl_ser_sub Communications.errs Communications.parse Communications.toJ
          Communications.init (fun w hw => errs_toJ_Communications hw) rfl h4,
        dfl_ser_list Competitor.errs Competitor.parse Competitor.toJ
          (fun w hw => errs_toJ_Competitor hw) h5,
        dfl_ser_list GroupCompany.errs GroupCompany.parse GroupCompany.toJ
          (fun w hw => errs_toJ_GroupCompany hw) h6,
        dfl_ser_float h9]
  | null => simp [CompanyProfile.errs] at h
  | bool b => simp [CompanyProfile.errs] at h
  | num q => simp [CompanyProfile.errs] at h
  | str s => simp [CompanyProfile.errs] at h
  | arr xs => simp [CompanyProfile.errs] at h

/-! ### Claim C4 -/

/-- Claim C4: validation never partially applies a document: it either
returns a typed profile (exactly when the tree has no violation) or rejects
the document as a whole with the complete list of violations found anywhere
in the tree, each carrying its path, kind of rule and received value — never
just the first one.  The concrete document shows seven violations from four
different subtrees reported together in one pass. -/
theorem errors_collected_whole_tree :
    (∀ v es, validate v = .error es → es = CompanyProfile.errs v ∧ es ≠ []) ∧
    (∀ v p, validate v = .ok p →
      CompanyProfile.errs v = [] ∧ p = CompanyProfile.parse v) ∧
    validate multiErrorDoc = .error
      [⟨["basic", "company_name"], .structural, .null⟩,
       ⟨["basic", "ticker_code"], .range, .num 123⟩,
       ⟨["basic", "headquarters_pref"], .enum, .str "Tokyo"⟩,
       ⟨["financials", "records", "0", "roe"], .range, .num 2⟩,
       ⟨["communications", "social_accounts", "0", "platform"], .enum, .str "Twitter"⟩,
       ⟨["communications", "social_accounts", "0", "url"], .structural, .null⟩,
       ⟨["confidence"], .range, .num 2⟩] := by
  refine ⟨fun v es h => validate_error h, fun v p h => validate_ok h, rfl⟩

/-- Witness for C4 at the multi-violation document. -/
theorem errors_collected_whole_tree_witness :
    CompanyProfile.errs multiErrorDoc ≠ [] := by
  have h := errors_collected_whole_tree.1 multiErrorDoc _
    errors_collected_whole_tree.2.2
  rw [← h.1]
  exact h.2

/-! ### Claim C8 -/

/-- Claim C8: round-trip idempotence: any profile produced by a successful
validation, serialized back to an untyped document (`model_dump`) and
validated again, validates successfully to the very same profile. -/
theorem validate_serialize_roundtrip :
    ∀ (v : JValue) (d : CompanyProfile), validate v = .ok d →
      validate (CompanyProfile.toJ d) = .ok d := by
  intro v d h
  obtain ⟨he, hp⟩ := validate_ok h
  subst hp
  have h2 : CompanyProfile.errs (CompanyProfile.toJ (CompanyProfile.parse v)) = [] :=
    errs_toJ_CompanyProfile he
  unfold validate
  rw [h2, parse_toJ_CompanyProfile]

/-- Witness for C8: round trip through the serialized minimal profile. -/
theorem validate_serialize_roundtrip_witness :
    validate (CompanyProfile.toJ (CompanyProfile.init "X")) =
      .ok (CompanyProfile.init "X") :=
  validate_serialize_roundtrip minimalDoc (CompanyProfile.init "X") rfl

/-- Witness for C10 at a value that is nothing like a 13-digit identifier. -/
theorem corporate_number_unconstrained_witness :
    validate (docCorpNum (.str "not-a-number!")) =
      .ok { CompanyProfile.init "X" with
            basic := { CompanyBasic.init "X" with corporate_number := some "not-a-number!" }
            group_companies := [{ GroupCompany.init "G" with
                                  corporate_number := some "not-a-number!" }] } :=
  corporate_number_unconstrained.1 "not-a-number!"

end CompanyResearch
